import Mathlib

/-!
# Verification of the TFT panel driver `tft_2p.c`

A shallow embedding of `src/tft_2p.c` (pico-mac-nano): the transaction framer
(`tft_write_command`, `tft_write_data`, `tft_write_com`, `tft_write_dat`), the
addressing helpers (`tft_set_addr_window`, `tft_begin_pixels`,
`tft_end_pixels`) and the scaling renderer (`st7789_sample_pixel`,
`st7789_spi_render_frame`).

Conventions of the embedding.

* Every hardware side effect (`gpio_put`, `spi_write_blocking`, `sleep_us`,
  `put_pixel_red`) is recorded as an `Event`; a C function that only performs
  side effects becomes the list of events it emits, in program order.
* `uint32_t`, `uint16_t` and `uint8_t` values are natural numbers, reduced
  modulo `2^32`, `2^16`, `2^8` at every place where C converts or wraps.
* The build-time macros `TFT_WIDTH`, `TFT_HEIGHT`, `TFT_X_OFFSET`,
  `TFT_Y_OFFSET`, `FB_WIDTH`, `FB_HEIGHT` are the fields of `Config`;
  `defaultConfig` holds the values the file defines.
* Array accesses are checked: a read outside the framebuffer or a write
  outside `line_bytes` makes the embedded function return `none`.
-/

namespace Tft2p

/-! ## Machine arithmetic -/

/-- Conversion to `uint32_t`. -/
def wrap32 (n : Nat) : Nat := n % 4294967296

/-- Conversion to `uint16_t`. -/
def wrap16 (n : Nat) : Nat := n % 65536

/-- Conversion to `uint8_t` / `unsigned char`. -/
def wrap8 (n : Nat) : Nat := n % 256

/-- Subtraction of two `uint32_t` values, wrapping modulo `2^32`. -/
def sub32 (a b : Nat) : Nat := (wrap32 a + 4294967296 - wrap32 b) % 4294967296

/-! ## Events on the bus -/

/-- GPIO pins the driver writes, named by their macros (`hw.h`). -/
inductive Pin where
  | TFT_SPI_CS
  | TFT_DC
  | TFT_SPI_MOSI
  | TFT_SPI_CLK
  deriving DecidableEq, Repr

/-- One externally visible side effect of the driver. -/
inductive Event where
  | gpio_put (pin : Pin) (level : Bool)
  | spi_write (data : List Nat)
  | sleep_us (us : Nat)
  | put_pixel_red (value : Nat)
  deriving DecidableEq, Repr

/-! ## Build configuration -/

/-- The macros that parameterise the ST7789 code path. -/
structure Config where
  TFT_WIDTH : Nat
  TFT_HEIGHT : Nat
  TFT_X_OFFSET : Nat
  TFT_Y_OFFSET : Nat
  FB_WIDTH : Nat
  FB_HEIGHT : Nat
  deriving DecidableEq, Repr

/-- The values `tft_2p.c` gives the macros when nothing overrides them. -/
def defaultConfig : Config :=
  { TFT_WIDTH := 240, TFT_HEIGHT := 320, TFT_X_OFFSET := 0, TFT_Y_OFFSET := 0,
    FB_WIDTH := 512, FB_HEIGHT := 342 }

/-! ## Transaction framer, hardware SPI variant -/

/-- `tft_spi_select`: chip-select is active low. -/
def tft_spi_select (select : Bool) : List Event :=
  [Event.gpio_put Pin.TFT_SPI_CS (if select then false else true)]

/-- `tft_spi_write`: one blocking SPI transfer of `data`. -/
def tft_spi_write (data : List Nat) : List Event :=
  [Event.spi_write data]

/-- `tft_write_command`. -/
def tft_write_command (command : Nat) : List Event :=
  [Event.gpio_put Pin.TFT_DC false]
    ++ tft_spi_select true
    ++ tft_spi_write [command]
    ++ tft_spi_select false

/-- `tft_write_data`. -/
def tft_write_data (data : List Nat) : List Event :=
  [Event.gpio_put Pin.TFT_DC true]
    ++ tft_spi_select true
    ++ tft_spi_write data
    ++ tft_spi_select false

/-- `tft_set_addr_window`; the arguments are `uint16_t`, the four elements of
`data` are `uint8_t`. -/
def tft_set_addr_window (x0 y0 x1 y1 : Nat) : List Event :=
  tft_write_command 0x2A
    ++ tft_write_data [wrap8 (x0 >>> 8), wrap8 (x0 &&& 0xFF), wrap8 (x1 >>> 8), wrap8 (x1 &&& 0xFF)]
    ++ tft_write_command 0x2B
    ++ tft_write_data [wrap8 (y0 >>> 8), wrap8 (y0 &&& 0xFF), wrap8 (y1 >>> 8), wrap8 (y1 &&& 0xFF)]

/-- `tft_begin_pixels`. -/
def tft_begin_pixels : List Event :=
  [Event.gpio_put Pin.TFT_DC false]
    ++ tft_spi_select true
    ++ tft_spi_write [0x2C]
    ++ [Event.gpio_put Pin.TFT_DC true]

/-- `tft_end_pixels`. -/
def tft_end_pixels : List Event :=
  tft_spi_select false

/-! ## Scaling renderer -/

/-- `st7789_sample_pixel`. The word read is `framebuffer[src_y * stride + (src_x >> 5)]`,
the offset `src_y * stride` being a `uint32_t` product. -/
def st7789_sample_pixel (framebuffer : List Nat) (src_x src_y src_stride_words : Nat) :
    Option Nat :=
  match framebuffer[wrap32 (src_y * src_stride_words) + (src_x >>> 5)]? with
  | none => none
  | some word =>
    let bit := sub32 31 (src_x &&& 31)
    let pixel_on := ((word >>> bit) &&& 0x1) != 0
    some (if pixel_on then 0xFFFF else 0x0000)

/-- The values computed before the row loop of `st7789_spi_render_frame`. -/
structure Viewport where
  active_w : Nat
  active_h : Nat
  x_pad : Nat
  y_pad : Nat
  deriving DecidableEq, Repr

/-- Lines 132 to 140 of `st7789_spi_render_frame`: the fit step and the padding. The
products of macros are `int` expressions; their results are stored in `uint32_t`. -/
def st7789_viewport (cfg : Config) : Viewport :=
  let active_w := wrap32 cfg.TFT_WIDTH
  let active_h := wrap32 ((cfg.TFT_WIDTH * cfg.FB_HEIGHT) / cfg.FB_WIDTH)
  let fit : Nat × Nat :=
    if active_h > wrap32 cfg.TFT_HEIGHT then
      (wrap32 ((cfg.TFT_HEIGHT * cfg.FB_WIDTH) / cfg.FB_HEIGHT), wrap32 cfg.TFT_HEIGHT)
    else
      (active_w, active_h)
  { active_w := fit.1
    active_h := fit.2
    x_pad := sub32 cfg.TFT_WIDTH fit.1 / 2
    y_pad := sub32 cfg.TFT_HEIGHT fit.2 / 2 }

/-- The constant `src_stride_words = FB_WIDTH / 32`. -/
def src_stride_words (cfg : Config) : Nat := wrap32 (cfg.FB_WIDTH / 32)

/-- A checked store into `line_bytes`. -/
def store_byte (line_bytes : List Nat) (index value : Nat) : Option (List Nat) :=
  if index < line_bytes.length then some (line_bytes.set index value) else none

/-- The inner loop `for (x = ...; x < active_w; x++)` of the renderer, with `count`
iterations still to run, the next one at column `x`. -/
def st7789_render_columns (cfg : Config) (framebuffer : List Nat) (src_y : Nat) :
    Nat → Nat → List Nat → Option (List Nat)
  | 0, _, line_bytes => some line_bytes
  | count + 1, x, line_bytes =>
    let vp := st7789_viewport cfg
    let src_x := wrap32 (x * cfg.FB_WIDTH) / vp.active_w
    match st7789_sample_pixel framebuffer src_x src_y (src_stride_words cfg) with
    | none => none
    | some color =>
      let out_x := wrap32 (x + vp.x_pad)
      match store_byte line_bytes (wrap32 (out_x * 2)) (wrap8 (color >>> 8)) with
      | none => none
      | some line1 =>
        match store_byte line1 (wrap32 (out_x * 2 + 1)) (wrap8 (color &&& 0xFF)) with
        | none => none
        | some line2 => st7789_render_columns cfg framebuffer src_y count (x + 1) line2

/-- The body of the row loop up to the transmission: the content of `line_bytes`
when row `y` is handed to `tft_spi_write`. -/
def st7789_render_line (cfg : Config) (framebuffer : List Nat) (y : Nat) : Option (List Nat) :=
  let vp := st7789_viewport cfg
  let line_bytes := List.replicate (cfg.TFT_WIDTH * 2) 0
  if y ≥ vp.y_pad ∧ y < wrap32 (vp.y_pad + vp.active_h) then
    let src_y := wrap32 (sub32 y vp.y_pad * cfg.FB_HEIGHT) / vp.active_h
    st7789_render_columns cfg framebuffer src_y vp.active_w 0 line_bytes
  else
    some line_bytes

/-- The row loop `for (y = ...; y < TFT_HEIGHT; y++)`, with `count` iterations still
to run, the next one at row `y`. -/
def st7789_render_rows (cfg : Config) (framebuffer : List Nat) :
    Nat → Nat → Option (List Event)
  | 0, _ => some []
  | count + 1, y =>
    match st7789_render_line cfg framebuffer y with
    | none => none
    | some line_bytes =>
      match st7789_render_rows cfg framebuffer count (y + 1) with
      | none => none
      | some rest => some (tft_spi_write line_bytes ++ rest)

/-- `st7789_spi_render_frame`. -/
def st7789_spi_render_frame (cfg : Config) (framebuffer : List Nat) : Option (List Event) :=
  match st7789_render_rows cfg framebuffer (wrap32 cfg.TFT_HEIGHT) 0 with
  | none => none
  | some rows =>
    some (tft_set_addr_window
            (wrap16 cfg.TFT_X_OFFSET) (wrap16 cfg.TFT_Y_OFFSET)
            (wrap16 (cfg.TFT_X_OFFSET + cfg.TFT_WIDTH - 1))
            (wrap16 (cfg.TFT_Y_OFFSET + cfg.TFT_HEIGHT - 1))
          ++ tft_begin_pixels
          ++ rows
          ++ tft_end_pixels)

/-! ## Transaction framer, bit-synchronized variant -/

/-- The loop `for (i = 0; i < 8; i++)` of `tft_write_com`, with `count` iterations
still to run; `pause` is the macro `TFT_SPI_PAUSE`. -/
def tft_write_com_loop (pause : Nat) : Nat → Nat → List Event
  | 0, _ => []
  | count + 1, comm =>
    [Event.gpio_put Pin.TFT_SPI_MOSI (if (comm &&& 0x80) != 0 then true else false),
     Event.gpio_put Pin.TFT_SPI_CLK false,
     Event.sleep_us pause,
     Event.gpio_put Pin.TFT_SPI_CLK true]
      ++ tft_write_com_loop pause count (wrap8 (comm <<< 1))

/-- `tft_write_com`. -/
def tft_write_com (pause : Nat) (comm : Nat) : List Event :=
  [Event.put_pixel_red 1,
   Event.gpio_put Pin.TFT_SPI_CS false,
   Event.gpio_put Pin.TFT_SPI_MOSI false,
   Event.gpio_put Pin.TFT_SPI_CLK false,
   Event.sleep_us pause,
   Event.gpio_put Pin.TFT_SPI_CLK true]
    ++ tft_write_com_loop pause 8 comm
    ++ [Event.gpio_put Pin.TFT_SPI_CS true,
        Event.put_pixel_red 0]

/-- The loop `for (j = 0; j < 8; j++)` of `tft_write_dat`. -/
def tft_write_dat_loop (pause : Nat) : Nat → Nat → List Event
  | 0, _ => []
  | count + 1, datt =>
    [Event.gpio_put Pin.TFT_SPI_MOSI (if (datt &&& 0x80) != 0 then true else false),
     Event.gpio_put Pin.TFT_SPI_CLK false,
     Event.sleep_us pause,
     Event.gpio_put Pin.TFT_SPI_CLK true]
      ++ tft_write_dat_loop pause count (wrap8 (datt <<< 1))

/-- `tft_write_dat`. -/
def tft_write_dat (pause : Nat) (datt : Nat) : List Event :=
  [Event.put_pixel_red 1,
   Event.gpio_put Pin.TFT_SPI_CS false,
   Event.gpio_put Pin.TFT_SPI_MOSI true,
   Event.gpio_put Pin.TFT_SPI_CLK false,
   Event.sleep_us pause,
   Event.gpio_put Pin.TFT_SPI_CLK true]
    ++ tft_write_dat_loop pause 8 datt
    ++ [Event.gpio_put Pin.TFT_SPI_CS true,
        Event.put_pixel_red 0]

/-! ## Specification-side vocabulary -/

/-- The source bit at column `sx`, row `sy` of a bit-packed framebuffer: row-major with
`stride` words per row, most significant bit of each 32-bit word first. -/
def source_bit (framebuffer : List Nat) (stride sx sy : Nat) : Bool :=
  (framebuffer.getD (sy * stride + sx / 32) 0).testBit (31 - sx % 32)

/-- High byte of a 16-bit colour. -/
def hi_byte (color : Nat) : Nat := color / 256

/-- Low byte of a 16-bit colour. -/
def lo_byte (color : Nat) : Nat := color % 256

/-- The colour the specification assigns to destination pixel `(c, y)` of a row inside
the vertical band: "on" when the column is inside the horizontal band and the
nearest-neighbour source bit is set, "off" otherwise. -/
def expected_pixel (cfg : Config) (framebuffer : List Nat) (c y : Nat) : Nat :=
  let vp := st7789_viewport cfg
  if vp.x_pad ≤ c ∧ c < vp.x_pad + vp.active_w ∧
      source_bit framebuffer (cfg.FB_WIDTH / 32)
        ((c - vp.x_pad) * cfg.FB_WIDTH / vp.active_w)
        ((y - vp.y_pad) * cfg.FB_HEIGHT / vp.active_h) = true
  then 0xFFFF else 0x0000

/-- The bytes of destination row `y` as the specification describes them: pixels left to
right, each as high byte then low byte; rows outside the vertical band are all zero. -/
def expected_row (cfg : Config) (framebuffer : List Nat) (y : Nat) : List Nat :=
  let vp := st7789_viewport cfg
  (List.range (cfg.TFT_WIDTH * 2)).map (fun i =>
    if vp.y_pad ≤ y ∧ y < vp.y_pad + vp.active_h then
      (if i % 2 = 0 then hi_byte (expected_pixel cfg framebuffer (i / 2) y)
       else lo_byte (expected_pixel cfg framebuffer (i / 2) y))
    else 0)

/-- The event trace of one frame whose pixel stream consists of the raw writes `rows`:
address window for the full panel, `tft_begin_pixels`, one raw write per element of
`rows` in order, `tft_end_pixels`. -/
def frame_trace (cfg : Config) (rows : List (List Nat)) : List Event :=
  tft_set_addr_window
      (wrap16 cfg.TFT_X_OFFSET) (wrap16 cfg.TFT_Y_OFFSET)
      (wrap16 (cfg.TFT_X_OFFSET + cfg.TFT_WIDTH - 1))
      (wrap16 (cfg.TFT_Y_OFFSET + cfg.TFT_HEIGHT - 1))
    ++ tft_begin_pixels
    ++ rows.map Event.spi_write
    ++ tft_end_pixels

/-- Configurations for which the renderer's arithmetic is exact: positive resolutions,
the `int` products of the fit step below `2^31`, the `uint32_t` products of the two
scaling loops and of the row offset below `2^32`, and a source width that is a whole
number of 32-bit words. -/
def Config.Valid (cfg : Config) : Prop :=
  0 < cfg.TFT_WIDTH ∧ 0 < cfg.TFT_HEIGHT ∧ 0 < cfg.FB_WIDTH ∧ 0 < cfg.FB_HEIGHT ∧
  cfg.TFT_WIDTH * cfg.FB_HEIGHT < 2147483648 ∧
  cfg.TFT_HEIGHT * cfg.FB_WIDTH < 2147483648 ∧
  cfg.TFT_WIDTH * cfg.FB_WIDTH < 4294967296 ∧
  cfg.TFT_HEIGHT * cfg.FB_HEIGHT < 4294967296 ∧
  cfg.FB_HEIGHT * (cfg.FB_WIDTH / 32) < 4294967296 ∧
  cfg.FB_WIDTH % 32 = 0

instance (cfg : Config) : Decidable cfg.Valid := by
  unfold Config.Valid
  infer_instance

/-- The framebuffer of the 512 by 342 source whose only set bits are columns 0 to 7 of
row 0: the first word has its eight most significant bits set, all others are zero. -/
def top_left_framebuffer : List Nat :=
  0xFF000000 :: List.replicate (342 * 16 - 1) 0

/-- A framebuffer of `words` words in which every bit is set. -/
def all_on_framebuffer (words : Nat) : List Nat :=
  List.replicate words 0xFFFFFFFF

/-- One clock pulse of the bit-synchronized transport: the data line is driven to
`level`, then the clock is driven low and, after the pause, high. -/
def clock_pulse (pause : Nat) (level : Bool) : List Event :=
  [Event.gpio_put Pin.TFT_SPI_MOSI level,
   Event.gpio_put Pin.TFT_SPI_CLK false,
   Event.sleep_us pause,
   Event.gpio_put Pin.TFT_SPI_CLK true]

/-- One transfer of the bit-synchronized transport: chip-select asserted, one clock pulse
per element of `bits` in order, chip-select released (bracketed by the status LED). -/
def bit_transfer (pause : Nat) (bits : List Bool) : List Event :=
  [Event.put_pixel_red 1, Event.gpio_put Pin.TFT_SPI_CS false]
    ++ bits.flatMap (clock_pulse pause)
    ++ [Event.gpio_put Pin.TFT_SPI_CS true, Event.put_pixel_red 0]

/-- Bits 7, 6, ..., 0 of a byte. -/
def msb_first_bits (b : Nat) : List Bool :=
  (List.range 8).map (fun i => b.testBit (7 - i))

/-- The data-line levels chosen by a loop that runs `count` times "test bit 7 of the
byte, then shift the byte left by one" (the loops of `tft_write_com` and `tft_write_dat`
without their pin writes). -/
def shifted_msbs : Nat → Nat → List Bool
  | 0, _ => []
  | count + 1, b =>
    (if (b &&& 0x80) != 0 then true else false) :: shifted_msbs count (wrap8 (b <<< 1))

/-- What a receiver on the bit-synchronized bus has seen so far. -/
structure BusState where
  cs_asserted : Bool
  clk_low : Bool
  mosi : Bool
  bits : List Bool
  deriving DecidableEq, Repr

/-- The receiver's view of one event: while chip-select is asserted, a clock pulse (the
clock driven low, then high) samples the current level of the data line. -/
def bus_step (s : BusState) : Event → BusState
  | Event.gpio_put Pin.TFT_SPI_CS level => { s with cs_asserted := !level }
  | Event.gpio_put Pin.TFT_SPI_MOSI level => { s with mosi := level }
  | Event.gpio_put Pin.TFT_SPI_CLK level =>
    if level then
      (if s.clk_low && s.cs_asserted then
        { s with clk_low := false, bits := s.bits ++ [s.mosi] }
      else
        { s with clk_low := false })
    else
      { s with clk_low := true }
  | _ => s

/-- The data-line levels sampled by the clock pulses of a trace, in order, starting from
an idle bus (chip-select released). -/
def clocked_bits (tr : List Event) : List Bool :=
  (tr.foldl bus_step { cs_asserted := false, clk_low := false, mosi := false, bits := [] }).bits

/-- Chip-select discipline, one event at a time. The state is `none` after a violation,
otherwise whether a session is open and how many sessions have been closed. Asserting
chip-select while a session is open, releasing it while none is open, and any bus write
(an SPI transfer, or driving the clock or data line) outside a session are violations. -/
def session_step : Option (Bool × Nat) → Event → Option (Bool × Nat)
  | none, _ => none
  | some (is_open, closed), Event.gpio_put Pin.TFT_SPI_CS level =>
    if level then
      (if is_open then some (false, closed + 1) else none)
    else
      (if is_open then none else some (true, closed))
  | some (is_open, closed), Event.spi_write _ =>
    if is_open then some (is_open, closed) else none
  | some (is_open, closed), Event.gpio_put Pin.TFT_SPI_MOSI _ =>
    if is_open then some (is_open, closed) else none
  | some (is_open, closed), Event.gpio_put Pin.TFT_SPI_CLK _ =>
    if is_open then some (is_open, closed) else none
  | some st, _ => some st

/-- The number of sessions of a trace that starts with chip-select released, respects the
chip-select discipline throughout and ends with chip-select released; `none` if the trace
violates the discipline or leaves a session open. -/
def sessions (tr : List Event) : Option Nat :=
  match tr.foldl session_step (some (false, 0)) with
  | some (false, closed) => some closed
  | _ => none

/-! ## Named parts of the renderer and further vocabulary -/

/-- Line 150 of `tft_2p.c`: the source row `src_y` computed for destination row `y`,
`((y - y_pad) * FB_HEIGHT) / active_h` in `uint32_t` arithmetic. -/
def st7789_src_y (cfg : Config) (y : Nat) : Nat :=
  wrap32 (sub32 y (st7789_viewport cfg).y_pad * cfg.FB_HEIGHT) / (st7789_viewport cfg).active_h

/-- Line 152 of `tft_2p.c`: the source column `src_x` computed for loop counter `x`,
`(x * FB_WIDTH) / active_w` in `uint32_t` arithmetic. -/
def st7789_src_x (cfg : Config) (x : Nat) : Nat :=
  wrap32 (x * cfg.FB_WIDTH) / (st7789_viewport cfg).active_w

/-- Line 154 of `tft_2p.c`: the output column `out_x = x + x_pad`. -/
def st7789_out_x (cfg : Config) (x : Nat) : Nat :=
  wrap32 (x + (st7789_viewport cfg).x_pad)

/-- Lines 121 and 122 of `tft_2p.c`: the index, in words from the start of the framebuffer,
of the word `line[src_x >> 5]` that `st7789_sample_pixel` reads. -/
def sample_word_index (src_x src_y src_stride_words : Nat) : Nat :=
  wrap32 (src_y * src_stride_words) + (src_x >>> 5)

/-- Rounded-up quotient, the specification's `ceil(a / b)`. -/
def ceil_div (a b : Nat) : Nat := (a + b - 1) / b

/-- The default source on a 320 by 240 (landscape) destination. -/
def landscape_config : Config :=
  { defaultConfig with TFT_WIDTH := 320, TFT_HEIGHT := 240 }

/-- The default source on a 256 by 171 destination, which has the source's aspect ratio. -/
def matched_config : Config :=
  { defaultConfig with TFT_WIDTH := 256, TFT_HEIGHT := 171 }

/-- The default source on a destination of the source's own resolution, 512 by 342. -/
def native_config : Config :=
  { defaultConfig with TFT_WIDTH := 512, TFT_HEIGHT := 342 }

/-! ## Arithmetic lemmas -/

theorem wrap32_of_lt {n : Nat} (h : n < 4294967296) : wrap32 n = n :=
  Nat.mod_eq_of_lt h

theorem sub32_of_le {a b : Nat} (hab : b ≤ a) (ha : a < 4294967296) : sub32 a b = a - b := by
  have hb : b < 4294967296 := lt_of_le_of_lt hab ha
  unfold sub32
  rw [wrap32_of_lt ha, wrap32_of_lt hb]
  omega

/-- The fit step in exact arithmetic. -/
theorem viewport_exact (cfg : Config)
    (hW : 0 < cfg.TFT_WIDTH) (hH : 0 < cfg.TFT_HEIGHT)
    (hSW : 0 < cfg.FB_WIDTH) (hSH : 0 < cfg.FB_HEIGHT)
    (h1 : cfg.TFT_WIDTH * cfg.FB_HEIGHT < 2147483648)
    (h2 : cfg.TFT_HEIGHT * cfg.FB_WIDTH < 2147483648) :
    st7789_viewport cfg =
      if cfg.TFT_WIDTH * cfg.FB_HEIGHT / cfg.FB_WIDTH > cfg.TFT_HEIGHT then
        { active_w := cfg.TFT_HEIGHT * cfg.FB_WIDTH / cfg.FB_HEIGHT
          active_h := cfg.TFT_HEIGHT
          x_pad := (cfg.TFT_WIDTH - cfg.TFT_HEIGHT * cfg.FB_WIDTH / cfg.FB_HEIGHT) / 2
          y_pad := 0 }
      else
        { active_w := cfg.TFT_WIDTH
          active_h := cfg.TFT_WIDTH * cfg.FB_HEIGHT / cfg.FB_WIDTH
          x_pad := 0
          y_pad := (cfg.TFT_HEIGHT - cfg.TFT_WIDTH * cfg.FB_HEIGHT / cfg.FB_WIDTH) / 2 } := by
  have hWlt : cfg.TFT_WIDTH < 2147483648 :=
    lt_of_le_of_lt (Nat.le_mul_of_pos_right _ hSH) h1
  have hHlt : cfg.TFT_HEIGHT < 2147483648 :=
    lt_of_le_of_lt (Nat.le_mul_of_pos_right _ hSW) h2
  have hah : cfg.TFT_WIDTH * cfg.FB_HEIGHT / cfg.FB_WIDTH < 2147483648 :=
    lt_of_le_of_lt (Nat.div_le_self _ _) h1
  have haw : cfg.TFT_HEIGHT * cfg.FB_WIDTH / cfg.FB_HEIGHT < 2147483648 :=
    lt_of_le_of_lt (Nat.div_le_self _ _) h2
  have e1 : wrap32 cfg.TFT_WIDTH = cfg.TFT_WIDTH := wrap32_of_lt (by omega)
  have e2 : wrap32 cfg.TFT_HEIGHT = cfg.TFT_HEIGHT := wrap32_of_lt (by omega)
  have e3 : wrap32 (cfg.TFT_WIDTH * cfg.FB_HEIGHT / cfg.FB_WIDTH)
      = cfg.TFT_WIDTH * cfg.FB_HEIGHT / cfg.FB_WIDTH := wrap32_of_lt (by omega)
  have e4 : wrap32 (cfg.TFT_HEIGHT * cfg.FB_WIDTH / cfg.FB_HEIGHT)
      = cfg.TFT_HEIGHT * cfg.FB_WIDTH / cfg.FB_HEIGHT := wrap32_of_lt (by omega)
  unfold st7789_viewport
  simp only [e1, e2, e3, e4]
  by_cases hc : cfg.TFT_WIDTH * cfg.FB_HEIGHT / cfg.FB_WIDTH > cfg.TFT_HEIGHT
  · have hle : cfg.TFT_HEIGHT * cfg.FB_WIDTH / cfg.FB_HEIGHT ≤ cfg.TFT_WIDTH := by
      have h3 : (cfg.TFT_HEIGHT + 1) * cfg.FB_WIDTH ≤ cfg.TFT_WIDTH * cfg.FB_HEIGHT :=
        (Nat.le_div_iff_mul_le hSW).1 hc
      have h4 : cfg.TFT_HEIGHT * cfg.FB_WIDTH ≤ cfg.TFT_WIDTH * cfg.FB_HEIGHT := by
        have : cfg.TFT_HEIGHT * cfg.FB_WIDTH ≤ (cfg.TFT_HEIGHT + 1) * cfg.FB_WIDTH :=
          Nat.mul_le_mul_right _ (Nat.le_succ _)
        omega
      exact Nat.div_le_of_le_mul (by rw [Nat.mul_comm cfg.FB_HEIGHT]; exact h4)
    simp only [hc, if_true]
    rw [sub32_of_le hle (by omega), sub32_of_le (le_refl _) (by omega)]
    simp
  · simp only [hc, if_false]
    rw [sub32_of_le (le_refl _) (by omega), sub32_of_le (not_lt.1 hc) (by omega)]
    simp

theorem and_31_eq_mod (n : Nat) : n &&& 31 = n % 32 :=
  Nat.and_pow_two_sub_one_eq_mod n 5

theorem shr_5_eq_div (n : Nat) : n >>> 5 = n / 32 :=
  Nat.shiftRight_eq_div_pow n 5

/-- With the word in range, `st7789_sample_pixel` returns the colour of the source bit. -/
theorem sample_pixel_eq (fb : List Nat) (sx sy stride : Nat)
    (h1 : sy * stride < 4294967296) (h2 : sy * stride + sx / 32 < fb.length) :
    st7789_sample_pixel fb sx sy stride
      = some (if source_bit fb stride sx sy = true then 0xFFFF else 0x0000) := by
  have hbit : sub32 31 (sx &&& 31) = 31 - sx % 32 := by
    rw [and_31_eq_mod]
    exact sub32_of_le (by omega) (by norm_num)
  unfold st7789_sample_pixel source_bit
  rw [wrap32_of_lt h1, shr_5_eq_div, List.getElem?_eq_getElem h2]
  simp only [hbit]
  rw [List.getD_eq_getElem _ _ h2]
  simp only [Nat.testBit, Nat.and_comm 1]

/-- Bounds and padding of the viewport in exact arithmetic. -/
theorem viewport_bounds (cfg : Config)
    (hW : 0 < cfg.TFT_WIDTH) (hH : 0 < cfg.TFT_HEIGHT)
    (hSW : 0 < cfg.FB_WIDTH) (hSH : 0 < cfg.FB_HEIGHT)
    (h1 : cfg.TFT_WIDTH * cfg.FB_HEIGHT < 2147483648)
    (h2 : cfg.TFT_HEIGHT * cfg.FB_WIDTH < 2147483648) :
    (st7789_viewport cfg).active_w ≤ cfg.TFT_WIDTH ∧
    (st7789_viewport cfg).active_h ≤ cfg.TFT_HEIGHT ∧
    ((st7789_viewport cfg).active_w = cfg.TFT_WIDTH ∨
      (st7789_viewport cfg).active_h = cfg.TFT_HEIGHT) ∧
    (st7789_viewport cfg).x_pad = (cfg.TFT_WIDTH - (st7789_viewport cfg).active_w) / 2 ∧
    (st7789_viewport cfg).y_pad = (cfg.TFT_HEIGHT - (st7789_viewport cfg).active_h) / 2 := by
  rw [viewport_exact cfg hW hH hSW hSH h1 h2]
  by_cases hc : cfg.TFT_WIDTH * cfg.FB_HEIGHT / cfg.FB_WIDTH > cfg.TFT_HEIGHT
  · have h3 : (cfg.TFT_HEIGHT + 1) * cfg.FB_WIDTH ≤ cfg.TFT_WIDTH * cfg.FB_HEIGHT :=
      (Nat.le_div_iff_mul_le hSW).1 hc
    have h4 : cfg.TFT_HEIGHT * cfg.FB_WIDTH ≤ cfg.TFT_WIDTH * cfg.FB_HEIGHT := by
      have : cfg.TFT_HEIGHT * cfg.FB_WIDTH ≤ (cfg.TFT_HEIGHT + 1) * cfg.FB_WIDTH :=
        Nat.mul_le_mul_right _ (Nat.le_succ _)
      omega
    have hle : cfg.TFT_HEIGHT * cfg.FB_WIDTH / cfg.FB_HEIGHT ≤ cfg.TFT_WIDTH :=
      Nat.div_le_of_le_mul (by rw [Nat.mul_comm cfg.FB_HEIGHT]; exact h4)
    rw [if_pos hc]
    exact ⟨hle, le_refl _, Or.inr rfl, rfl, by simp⟩
  · rw [if_neg hc]
    exact ⟨le_refl _, not_lt.1 hc, Or.inl rfl, by simp, rfl⟩

/-- Facts about a valid configuration used throughres. -/
theorem valid_facts (cfg : Config) (hv : cfg.Valid) :
    (st7789_viewport cfg).active_w ≤ cfg.TFT_WIDTH ∧
    (st7789_viewport cfg).active_h ≤ cfg.TFT_HEIGHT ∧
    (st7789_viewport cfg).x_pad + (st7789_viewport cfg).active_w ≤ cfg.TFT_WIDTH ∧
    (st7789_viewport cfg).y_pad + (st7789_viewport cfg).active_h ≤ cfg.TFT_HEIGHT ∧
    cfg.TFT_WIDTH < 2147483648 ∧ cfg.TFT_HEIGHT < 2147483648 := by
  obtain ⟨hW, hH, hSW, hSH, h1, h2, -, -, -, -⟩ := hv
  obtain ⟨a, b, -, c, d⟩ := viewport_bounds cfg hW hH hSW hSH h1 h2
  have hWlt : cfg.TFT_WIDTH < 2147483648 :=
    lt_of_le_of_lt (Nat.le_mul_of_pos_right _ hSH) h1
  have hHlt : cfg.TFT_HEIGHT < 2147483648 :=
    lt_of_le_of_lt (Nat.le_mul_of_pos_right _ hSW) h2
  refine ⟨a, b, ?_, ?_, hWlt, hHlt⟩ <;> omega

theorem wrap8_hi (b : Bool) :
    wrap8 ((if b = true then 0xFFFF else 0x0000) >>> 8)
      = hi_byte (if b = true then 0xFFFF else 0x0000) := by
  cases b <;> decide

theorem wrap8_lo (b : Bool) :
    wrap8 ((if b = true then 0xFFFF else 0x0000) &&& 0xFF)
      = lo_byte (if b = true then 0xFFFF else 0x0000) := by
  cases b <;> decide

/-- The column loop, started at column `x` with `n` iterations left, overwrites exactly the
bytes of output columns `x + x_pad` up to `x + n + x_pad` with the sampled colours. -/
theorem render_columns_spec (cfg : Config) (fb : List Nat) (sy : Nat) (hv : cfg.Valid)
    (hfb : cfg.FB_HEIGHT * (cfg.FB_WIDTH / 32) ≤ fb.length) (hsy : sy < cfg.FB_HEIGHT) :
    ∀ (n x : Nat) (buf : List Nat),
      x + n ≤ (st7789_viewport cfg).active_w → buf.length = cfg.TFT_WIDTH * 2 →
      ∃ res, st7789_render_columns cfg fb sy n x buf = some res ∧
        res.length = cfg.TFT_WIDTH * 2 ∧
        ∀ i, res[i]? =
          if 2 * (x + (st7789_viewport cfg).x_pad) ≤ i ∧
              i < 2 * (x + n + (st7789_viewport cfg).x_pad) then
            some (if i % 2 = 0 then
                hi_byte (if source_bit fb (cfg.FB_WIDTH / 32)
                  ((i / 2 - (st7789_viewport cfg).x_pad) * cfg.FB_WIDTH
                    / (st7789_viewport cfg).active_w) sy = true then 0xFFFF else 0x0000)
              else
                lo_byte (if source_bit fb (cfg.FB_WIDTH / 32)
                  ((i / 2 - (st7789_viewport cfg).x_pad) * cfg.FB_WIDTH
                    / (st7789_viewport cfg).active_w) sy = true then 0xFFFF else 0x0000))
          else (buf[i]?) := by
  obtain ⟨haw, -, hxp, -, hWlt, -⟩ := valid_facts cfg hv
  obtain ⟨hW, hH, hSW, hSH, h1, h2, h3, h4, h5, h6⟩ := hv
  have hstride : src_stride_words cfg = cfg.FB_WIDTH / 32 :=
    wrap32_of_lt (lt_of_le_of_lt (Nat.div_le_self _ _) (by
      have : cfg.FB_WIDTH ≤ cfg.TFT_WIDTH * cfg.FB_WIDTH := Nat.le_mul_of_pos_left _ hW
      omega))
  intro n
  induction n with
  | zero =>
    intro x buf _ hl
    refine ⟨buf, rfl, hl, fun i => ?_⟩
    rw [if_neg]
    omega
  | succ n ih =>
    intro x buf hx hl
    have hxlt : x < (st7789_viewport cfg).active_w := by omega
    have hawpos : 0 < (st7789_viewport cfg).active_w := by omega
    have hmul : x * cfg.FB_WIDTH < cfg.TFT_WIDTH * cfg.FB_WIDTH :=
      Nat.mul_lt_mul_of_pos_right (by omega) hSW
    have hsx : x * cfg.FB_WIDTH / (st7789_viewport cfg).active_w < cfg.FB_WIDTH := by
      rw [Nat.div_lt_iff_lt_mul hawpos, Nat.mul_comm cfg.FB_WIDTH]
      exact Nat.mul_lt_mul_of_pos_right hxlt hSW
    have hrow : sy * (cfg.FB_WIDTH / 32) + cfg.FB_WIDTH / 32 ≤ cfg.FB_HEIGHT * (cfg.FB_WIDTH / 32) := by
      have : (sy + 1) * (cfg.FB_WIDTH / 32) ≤ cfg.FB_HEIGHT * (cfg.FB_WIDTH / 32) :=
        Nat.mul_le_mul_right _ hsy
      rw [Nat.add_mul, Nat.one_mul] at this
      exact this
    have hidx : x * cfg.FB_WIDTH / (st7789_viewport cfg).active_w / 32 < cfg.FB_WIDTH / 32 := by
      omega
    have hsample := sample_pixel_eq fb (x * cfg.FB_WIDTH / (st7789_viewport cfg).active_w) sy
      (cfg.FB_WIDTH / 32) (by omega) (by omega)
    have e1 : wrap32 (x * cfg.FB_WIDTH) = x * cfg.FB_WIDTH := wrap32_of_lt (by omega)
    have e2 : wrap32 (x + (st7789_viewport cfg).x_pad) = x + (st7789_viewport cfg).x_pad :=
      wrap32_of_lt (by omega)
    have e3 : wrap32 ((x + (st7789_viewport cfg).x_pad) * 2)
        = (x + (st7789_viewport cfg).x_pad) * 2 := wrap32_of_lt (by omega)
    have e4 : wrap32 ((x + (st7789_viewport cfg).x_pad) * 2 + 1)
        = (x + (st7789_viewport cfg).x_pad) * 2 + 1 := wrap32_of_lt (by omega)
    obtain ⟨res, hres, hlen, hget⟩ := ih (x + 1)
      ((buf.set ((x + (st7789_viewport cfg).x_pad) * 2)
          (hi_byte (if source_bit fb (cfg.FB_WIDTH / 32)
            (x * cfg.FB_WIDTH / (st7789_viewport cfg).active_w) sy = true
            then 0xFFFF else 0x0000))).set
        ((x + (st7789_viewport cfg).x_pad) * 2 + 1)
        (lo_byte (if source_bit fb (cfg.FB_WIDTH / 32)
            (x * cfg.FB_WIDTH / (st7789_viewport cfg).active_w) sy = true
            then 0xFFFF else 0x0000)))
      (by omega) (by simp [hl])
    refine ⟨res, ?_, hlen, fun i => ?_⟩
    · rw [← hres]
      simp only [st7789_render_columns, hstride, e1, hsample, e2, e3, e4, wrap8_hi, wrap8_lo]
      have s1 : ∀ v, store_byte buf ((x + (st7789_viewport cfg).x_pad) * 2) v
          = some (buf.set ((x + (st7789_viewport cfg).x_pad) * 2) v) := fun v =>
        if_pos (by rw [hl]; omega)
      have s2 : ∀ v w, store_byte (buf.set ((x + (st7789_viewport cfg).x_pad) * 2) v)
            ((x + (st7789_viewport cfg).x_pad) * 2 + 1) w
          = some ((buf.set ((x + (st7789_viewport cfg).x_pad) * 2) v).set
              ((x + (st7789_viewport cfg).x_pad) * 2 + 1) w) := fun v w =>
        if_pos (by rw [List.length_set, hl]; omega)
      rw [s1]
      simp only []
      rw [s2]
    · rw [hget i]
      simp only [List.getElem?_set, List.length_set, hl]
      by_cases hi1 : i = (x + (st7789_viewport cfg).x_pad) * 2
      · subst hi1
        have hd : (x + (st7789_viewport cfg).x_pad) * 2 / 2 - (st7789_viewport cfg).x_pad = x := by
          omega
        have hm : (x + (st7789_viewport cfg).x_pad) * 2 % 2 = 0 := by omega
        rw [hd, hm]
        simp (disch := omega) only [if_pos, if_neg, if_true]
      · by_cases hi2 : i = (x + (st7789_viewport cfg).x_pad) * 2 + 1
        · subst hi2
          have hd : ((x + (st7789_viewport cfg).x_pad) * 2 + 1) / 2
              - (st7789_viewport cfg).x_pad = x := by omega
          have hm : ((x + (st7789_viewport cfg).x_pad) * 2 + 1) % 2 = 1 := by omega
          rw [hd, hm]
          simp (disch := omega) only [if_pos, if_neg, if_true]
        · by_cases hr : 2 * (x + 1 + (st7789_viewport cfg).x_pad) ≤ i ∧
              i < 2 * (x + 1 + n + (st7789_viewport cfg).x_pad)
          · have hr2 : 2 * (x + (st7789_viewport cfg).x_pad) ≤ i ∧
                i < 2 * (x + (n + 1) + (st7789_viewport cfg).x_pad) := by omega
            rw [if_pos hr, if_pos hr2]
          · have hr2 : ¬ (2 * (x + (st7789_viewport cfg).x_pad) ≤ i ∧
                i < 2 * (x + (n + 1) + (st7789_viewport cfg).x_pad)) := by omega
            rw [if_neg hr, if_neg hr2, if_neg (fun h => hi2 h.symm),
              if_neg (fun h => hi1 h.symm)]

theorem expected_row_getElem? (cfg : Config) (fb : List Nat) (y i : Nat) :
    (expected_row cfg fb y)[i]? =
      if i < cfg.TFT_WIDTH * 2 then
        some (if (st7789_viewport cfg).y_pad ≤ y ∧
            y < (st7789_viewport cfg).y_pad + (st7789_viewport cfg).active_h then
          (if i % 2 = 0 then hi_byte (expected_pixel cfg fb (i / 2) y)
           else lo_byte (expected_pixel cfg fb (i / 2) y))
        else 0)
      else none := by
  unfold expected_row
  simp only [List.getElem?_map]
  by_cases h : i < cfg.TFT_WIDTH * 2
  · rw [List.getElem?_range h, if_pos h]
    rfl
  · rw [List.getElem?_eq_none (by simpa using h), if_neg h]
    rfl

theorem expected_row_length (cfg : Config) (fb : List Nat) (y : Nat) :
    (expected_row cfg fb y).length = cfg.TFT_WIDTH * 2 := by
  simp [expected_row]

/-- The line handed to `tft_spi_write` for row `y` is the row the specification describes. -/
theorem render_line_eq (cfg : Config) (fb : List Nat) (y : Nat) (hv : cfg.Valid)
    (hfb : cfg.FB_HEIGHT * (cfg.FB_WIDTH / 32) ≤ fb.length) (hy : y < cfg.TFT_HEIGHT) :
    st7789_render_line cfg fb y = some (expected_row cfg fb y) := by
  obtain ⟨haw, hah, hxp, hyp, hWlt, hHlt⟩ := valid_facts cfg hv
  have hv2 := hv
  obtain ⟨hW, hH, hSW, hSH, h1, h2, h3, h4, h5, h6⟩ := hv2
  have e1 : wrap32 ((st7789_viewport cfg).y_pad + (st7789_viewport cfg).active_h)
      = (st7789_viewport cfg).y_pad + (st7789_viewport cfg).active_h := wrap32_of_lt (by omega)
  unfold st7789_render_line
  simp only [e1, ge_iff_le]
  by_cases hb : (st7789_viewport cfg).y_pad ≤ y ∧
      y < (st7789_viewport cfg).y_pad + (st7789_viewport cfg).active_h
  · rw [if_pos hb]
    have hahpos : 0 < (st7789_viewport cfg).active_h := by omega
    have e2 : sub32 y (st7789_viewport cfg).y_pad = y - (st7789_viewport cfg).y_pad :=
      sub32_of_le hb.1 (by omega)
    have hlt : (y - (st7789_viewport cfg).y_pad) * cfg.FB_HEIGHT
        < (st7789_viewport cfg).active_h * cfg.FB_HEIGHT :=
      Nat.mul_lt_mul_of_pos_right (by omega) hSH
    have hle : (st7789_viewport cfg).active_h * cfg.FB_HEIGHT ≤ cfg.TFT_HEIGHT * cfg.FB_HEIGHT :=
      Nat.mul_le_mul_right _ hah
    have e3 : wrap32 ((y - (st7789_viewport cfg).y_pad) * cfg.FB_HEIGHT)
        = (y - (st7789_viewport cfg).y_pad) * cfg.FB_HEIGHT := wrap32_of_lt (by omega)
    have hsy : (y - (st7789_viewport cfg).y_pad) * cfg.FB_HEIGHT / (st7789_viewport cfg).active_h
        < cfg.FB_HEIGHT := by
      rw [Nat.div_lt_iff_lt_mul hahpos, Nat.mul_comm cfg.FB_HEIGHT]
      exact hlt
    rw [e2, e3]
    obtain ⟨res, hres, hlen, hget⟩ := render_columns_spec cfg fb _ hv hfb hsy
      (st7789_viewport cfg).active_w 0 (List.replicate (cfg.TFT_WIDTH * 2) 0)
      (by omega) (by simp)
    rw [hres]
    congr 1
    apply List.ext_getElem?
    intro i
    rw [hget i, expected_row_getElem?, List.getElem?_replicate]
    simp only [hb, and_self, if_true]
    by_cases hr : 2 * (0 + (st7789_viewport cfg).x_pad) ≤ i ∧
        i < 2 * (0 + (st7789_viewport cfg).active_w + (st7789_viewport cfg).x_pad)
    · have hc : (st7789_viewport cfg).x_pad ≤ i / 2 ∧
          i / 2 < (st7789_viewport cfg).x_pad + (st7789_viewport cfg).active_w := by omega
      have hi : i < cfg.TFT_WIDTH * 2 := by omega
      rw [if_pos hr, if_pos hi]
      unfold expected_pixel
      simp only [hc, true_and]
    · rw [if_neg hr]
      have hc : ¬ ((st7789_viewport cfg).x_pad ≤ i / 2 ∧
          i / 2 < (st7789_viewport cfg).x_pad + (st7789_viewport cfg).active_w) := by omega
      have hp : expected_pixel cfg fb (i / 2) y = 0 := by
        unfold expected_pixel
        rw [if_neg]
        intro h
        exact hc ⟨h.1, h.2.1⟩
      rw [hp]
      simp [hi_byte, lo_byte]
  · rw [if_neg hb]
    congr 1
    apply List.ext_getElem?
    intro i
    rw [expected_row_getElem?, List.getElem?_replicate, if_neg hb]

/-- The row loop emits one raw write per remaining row, top to bottom. -/
theorem render_rows_eq (cfg : Config) (fb : List Nat) (hv : cfg.Valid)
    (hfb : cfg.FB_HEIGHT * (cfg.FB_WIDTH / 32) ≤ fb.length) :
    ∀ (n y : Nat), y + n ≤ cfg.TFT_HEIGHT →
      st7789_render_rows cfg fb n y
        = some ((List.range' y n).map (fun k => Event.spi_write (expected_row cfg fb k))) := by
  intro n
  induction n with
  | zero => intro y _; rfl
  | succ n ih =>
    intro y hy
    simp only [st7789_render_rows, render_line_eq cfg fb y hv hfb (by omega),
      ih (y + 1) (by omega), tft_spi_write, List.range'_succ, List.map_cons,
      List.singleton_append]

/-- Functional correctness of the renderer: the whole trace of one call. -/
theorem render_frame_eq (cfg : Config) (fb : List Nat) (hv : cfg.Valid)
    (hfb : cfg.FB_HEIGHT * (cfg.FB_WIDTH / 32) ≤ fb.length) :
    st7789_spi_render_frame cfg fb
      = some (frame_trace cfg ((List.range cfg.TFT_HEIGHT).map (expected_row cfg fb))) := by
  obtain ⟨-, -, -, -, -, hHlt⟩ := valid_facts cfg hv
  have e : wrap32 cfg.TFT_HEIGHT = cfg.TFT_HEIGHT := wrap32_of_lt (by omega)
  unfold st7789_spi_render_frame frame_trace
  rw [e, render_rows_eq cfg fb hv hfb cfg.TFT_HEIGHT 0 (by omega)]
  simp only [List.range_eq_range', List.map_map]
  rfl

theorem src_stride_words_eq (cfg : Config) (hv : cfg.Valid) :
    src_stride_words cfg = cfg.FB_WIDTH / 32 := by
  obtain ⟨hW, -, -, -, -, -, h3, -, -, -⟩ := hv
  have : cfg.FB_WIDTH ≤ cfg.TFT_WIDTH * cfg.FB_WIDTH := Nat.le_mul_of_pos_left _ hW
  exact wrap32_of_lt (lt_of_le_of_lt (Nat.div_le_self _ _) (by omega))

theorem range_map_getElem? {α : Type} (f : Nat → α) (n k : Nat) (hk : k < n) :
    ((List.range n).map f)[k]? = some (f k) := by
  rw [List.getElem?_map, List.getElem?_range hk]
  rfl

/-- Rows outside the vertical band are all zero in the specification's row. -/
theorem expected_row_outside (cfg : Config) (fb : List Nat) (y : Nat)
    (hb : ¬ ((st7789_viewport cfg).y_pad ≤ y ∧
      y < (st7789_viewport cfg).y_pad + (st7789_viewport cfg).active_h)) :
    expected_row cfg fb y = List.replicate (cfg.TFT_WIDTH * 2) 0 := by
  apply List.ext_getElem?
  intro i
  rw [expected_row_getElem?, List.getElem?_replicate, if_neg hb]

/-- Bytes `2c` and `2c+1` of the specification's row inside the vertical band. -/
theorem expected_row_pixel (cfg : Config) (fb : List Nat) (y c : Nat)
    (hb : (st7789_viewport cfg).y_pad ≤ y ∧
      y < (st7789_viewport cfg).y_pad + (st7789_viewport cfg).active_h)
    (hc : c < cfg.TFT_WIDTH) :
    (expected_row cfg fb y)[2 * c]? = some (hi_byte (expected_pixel cfg fb c y)) ∧
    (expected_row cfg fb y)[2 * c + 1]? = some (lo_byte (expected_pixel cfg fb c y)) := by
  have h0 : 2 * c < cfg.TFT_WIDTH * 2 := by omega
  have h1 : 2 * c + 1 < cfg.TFT_WIDTH * 2 := by omega
  have d0 : 2 * c / 2 = c := by omega
  have d1 : (2 * c + 1) / 2 = c := by omega
  have m0 : 2 * c % 2 = 0 := by omega
  have m1 : ¬ (2 * c + 1) % 2 = 0 := by omega
  constructor
  · rw [expected_row_getElem?, if_pos h0, if_pos hb, if_pos m0, d0]
  · rw [expected_row_getElem?, if_pos h1, if_pos hb, if_neg m1, d1]

theorem hi_byte_ite (p : Prop) [Decidable p] :
    hi_byte (if p then 0xFFFF else 0x0000) = if p then 0xFF else 0x00 := by
  by_cases h : p <;> simp [h, hi_byte]

theorem lo_byte_ite (p : Prop) [Decidable p] :
    lo_byte (if p then 0xFFFF else 0x0000) = if p then 0xFF else 0x00 := by
  by_cases h : p <;> simp [h, lo_byte]

/-- C1. For every framebuffer of at least `FB_HEIGHT * src_stride_words` words, every
destination row `y` inside the vertical band and every column `c < TFT_WIDTH`, the raw
write that `st7789_spi_render_frame` transmits for row `y` holds at byte positions `2c`
and `2c+1` the high and low byte (`0xFF`, `0xFF`) of the "on" colour when
`x_pad ≤ c < x_pad + active_w` and the source bit at
`((c - x_pad) * FB_WIDTH / active_w, (y - y_pad) * FB_HEIGHT / active_h)` is set, and
`0x00`, `0x00` in every other case. -/
theorem C1_frame_pixel (cfg : Config) (fb : List Nat) (y c : Nat)
    (hv : cfg.Valid)
    (hfb : cfg.FB_HEIGHT * src_stride_words cfg ≤ fb.length)
    (hy1 : (st7789_viewport cfg).y_pad ≤ y)
    (hy2 : y < (st7789_viewport cfg).y_pad + (st7789_viewport cfg).active_h)
    (hc : c < cfg.TFT_WIDTH) :
    ∃ rows row,
      st7789_spi_render_frame cfg fb = some (frame_trace cfg rows) ∧
      rows[y]? = some row ∧
      row[2 * c]? = some
        (if (st7789_viewport cfg).x_pad ≤ c ∧
            c < (st7789_viewport cfg).x_pad + (st7789_viewport cfg).active_w ∧
            source_bit fb (src_stride_words cfg)
              ((c - (st7789_viewport cfg).x_pad) * cfg.FB_WIDTH / (st7789_viewport cfg).active_w)
              ((y - (st7789_viewport cfg).y_pad) * cfg.FB_HEIGHT / (st7789_viewport cfg).active_h)
              = true
          then hi_byte 0xFFFF else 0x00) ∧
      row[2 * c + 1]? = some
        (if (st7789_viewport cfg).x_pad ≤ c ∧
            c < (st7789_viewport cfg).x_pad + (st7789_viewport cfg).active_w ∧
            source_bit fb (src_stride_words cfg)
              ((c - (st7789_viewport cfg).x_pad) * cfg.FB_WIDTH / (st7789_viewport cfg).active_w)
              ((y - (st7789_viewport cfg).y_pad) * cfg.FB_HEIGHT / (st7789_viewport cfg).active_h)
              = true
          then lo_byte 0xFFFF else 0x00) := by
  have hs := src_stride_words_eq cfg hv
  rw [hs] at hfb ⊢
  obtain ⟨-, -, -, hyp, -, -⟩ := valid_facts cfg hv
  have hyH : y < cfg.TFT_HEIGHT := by omega
  obtain ⟨h0, h1⟩ := expected_row_pixel cfg fb y c ⟨hy1, hy2⟩ hc
  refine ⟨(List.range cfg.TFT_HEIGHT).map (expected_row cfg fb), expected_row cfg fb y,
    render_frame_eq cfg fb hv hfb, range_map_getElem? _ _ _ hyH, ?_, ?_⟩
  · rw [h0]
    unfold expected_pixel
    rw [hi_byte_ite]
    rfl
  · rw [h1]
    unfold expected_pixel
    rw [lo_byte_ite]
    rfl

/-- C1 at the default configuration, for the all-ones framebuffer, row 80, column 0. -/
theorem C1_frame_pixel_witness :
    ∃ rows row,
      st7789_spi_render_frame defaultConfig (all_on_framebuffer 5472)
        = some (frame_trace defaultConfig rows) ∧
      rows[80]? = some row ∧
      row[2 * 0]? = some
        (if (st7789_viewport defaultConfig).x_pad ≤ 0 ∧
            0 < (st7789_viewport defaultConfig).x_pad + (st7789_viewport defaultConfig).active_w ∧
            source_bit (all_on_framebuffer 5472) (src_stride_words defaultConfig)
              ((0 - (st7789_viewport defaultConfig).x_pad) * defaultConfig.FB_WIDTH
                / (st7789_viewport defaultConfig).active_w)
              ((80 - (st7789_viewport defaultConfig).y_pad) * defaultConfig.FB_HEIGHT
                / (st7789_viewport defaultConfig).active_h)
              = true
          then hi_byte 0xFFFF else 0x00) ∧
      row[2 * 0 + 1]? = some
        (if (st7789_viewport defaultConfig).x_pad ≤ 0 ∧
            0 < (st7789_viewport defaultConfig).x_pad + (st7789_viewport defaultConfig).active_w ∧
            source_bit (all_on_framebuffer 5472) (src_stride_words defaultConfig)
              ((0 - (st7789_viewport defaultConfig).x_pad) * defaultConfig.FB_WIDTH
                / (st7789_viewport defaultConfig).active_w)
              ((80 - (st7789_viewport defaultConfig).y_pad) * defaultConfig.FB_HEIGHT
                / (st7789_viewport defaultConfig).active_h)
              = true
          then lo_byte 0xFFFF else 0x00) :=
  C1_frame_pixel defaultConfig (all_on_framebuffer 5472) 80 0 (by decide)
    (by simp only [all_on_framebuffer, List.length_replicate]; decide)
    (by decide) (by decide) (by decide)

/-- C2. For positive resolutions whose `int` products do not overflow, the fit step yields
`(active_w, active_h) = (TFT_WIDTH, TFT_WIDTH * FB_HEIGHT / FB_WIDTH)`, or, when that
height exceeds `TFT_HEIGHT`, `(TFT_HEIGHT * FB_WIDTH / FB_HEIGHT, TFT_HEIGHT)`; the active
rectangle never exceeds the destination, one of its sides equals the destination's, and
so at most one axis is padded. -/
theorem C2_fit_within_destination (cfg : Config)
    (hW : 0 < cfg.TFT_WIDTH) (hH : 0 < cfg.TFT_HEIGHT)
    (hSW : 0 < cfg.FB_WIDTH) (hSH : 0 < cfg.FB_HEIGHT)
    (h1 : cfg.TFT_WIDTH * cfg.FB_HEIGHT < 2147483648)
    (h2 : cfg.TFT_HEIGHT * cfg.FB_WIDTH < 2147483648) :
    ((st7789_viewport cfg).active_w, (st7789_viewport cfg).active_h)
      = (if cfg.TFT_WIDTH * cfg.FB_HEIGHT / cfg.FB_WIDTH > cfg.TFT_HEIGHT then
          (cfg.TFT_HEIGHT * cfg.FB_WIDTH / cfg.FB_HEIGHT, cfg.TFT_HEIGHT)
        else (cfg.TFT_WIDTH, cfg.TFT_WIDTH * cfg.FB_HEIGHT / cfg.FB_WIDTH)) ∧
    (st7789_viewport cfg).active_w ≤ cfg.TFT_WIDTH ∧
    (st7789_viewport cfg).active_h ≤ cfg.TFT_HEIGHT ∧
    ((st7789_viewport cfg).active_w = cfg.TFT_WIDTH ∨
      (st7789_viewport cfg).active_h = cfg.TFT_HEIGHT) ∧
    ((st7789_viewport cfg).x_pad = 0 ∨ (st7789_viewport cfg).y_pad = 0) := by
  obtain ⟨a, b, c, d, e⟩ := viewport_bounds cfg hW hH hSW hSH h1 h2
  refine ⟨?_, a, b, c, ?_⟩
  · rw [viewport_exact cfg hW hH hSW hSH h1 h2]
    by_cases hc : cfg.TFT_WIDTH * cfg.FB_HEIGHT / cfg.FB_WIDTH > cfg.TFT_HEIGHT
    · rw [if_pos hc, if_pos hc]
    · rw [if_neg hc, if_neg hc]
  · rcases c with c | c
    · left
      rw [d, c]
      simp
    · right
      rw [e, c]
      simp

/-- C2 at the default configuration (512 by 342 onto 240 by 320). -/
theorem C2_fit_within_destination_witness :
    ((st7789_viewport defaultConfig).active_w, (st7789_viewport defaultConfig).active_h)
      = (if defaultConfig.TFT_WIDTH * defaultConfig.FB_HEIGHT / defaultConfig.FB_WIDTH
            > defaultConfig.TFT_HEIGHT then
          (defaultConfig.TFT_HEIGHT * defaultConfig.FB_WIDTH / defaultConfig.FB_HEIGHT,
            defaultConfig.TFT_HEIGHT)
        else (defaultConfig.TFT_WIDTH,
          defaultConfig.TFT_WIDTH * defaultConfig.FB_HEIGHT / defaultConfig.FB_WIDTH)) ∧
    (st7789_viewport defaultConfig).active_w ≤ defaultConfig.TFT_WIDTH ∧
    (st7789_viewport defaultConfig).active_h ≤ defaultConfig.TFT_HEIGHT ∧
    ((st7789_viewport defaultConfig).active_w = defaultConfig.TFT_WIDTH ∨
      (st7789_viewport defaultConfig).active_h = defaultConfig.TFT_HEIGHT) ∧
    ((st7789_viewport defaultConfig).x_pad = 0 ∨ (st7789_viewport defaultConfig).y_pad = 0) :=
  C2_fit_within_destination defaultConfig (by decide) (by decide) (by decide) (by decide)
    (by decide) (by decide)

theorem viewport_default :
    st7789_viewport defaultConfig
      = { active_w := 240, active_h := 160, x_pad := 0, y_pad := 80 } := by
  decide

theorem top_left_framebuffer_length : top_left_framebuffer.length = 5472 := by
  simp only [top_left_framebuffer, List.length_cons, List.length_replicate]

set_option maxRecDepth 1000000 in
theorem top_left_pixels :
    ∀ c, c < 240 →
      expected_pixel defaultConfig top_left_framebuffer c 80
        = if c ≤ 3 then 0xFFFF else 0x0000 := by
  decide

/-- C3. With the default 512 by 342 source and 240 by 320 destination the viewport is
240 by 160 with padding X = 0, Y = 80; for the framebuffer whose only set bits are columns
0 to 7 of row 0 the transmitted frame has 320 rows, row 80 has columns 0 to 3 "on"
(`0xFFFF`) and every other column "off", and rows 0 to 79 and 241 to 319 are all zero. -/
theorem C3_default_scenario :
    st7789_viewport defaultConfig
      = { active_w := 240, active_h := 160, x_pad := 0, y_pad := 80 } ∧
    ∃ rows,
      st7789_spi_render_frame defaultConfig top_left_framebuffer
        = some (frame_trace defaultConfig rows) ∧
      rows.length = 320 ∧
      (∃ row, rows[80]? = some row ∧ row.length = 480 ∧
        ∀ c, c < 240 →
          row[2 * c]? = some (hi_byte (if c ≤ 3 then 0xFFFF else 0x0000)) ∧
          row[2 * c + 1]? = some (lo_byte (if c ≤ 3 then 0xFFFF else 0x0000))) ∧
      (∀ y, (y ≤ 79 ∨ (241 ≤ y ∧ y ≤ 319)) → rows[y]? = some (List.replicate 480 0)) := by
  have hv : defaultConfig.Valid := by decide
  have hfb : defaultConfig.FB_HEIGHT * (defaultConfig.FB_WIDTH / 32)
      ≤ top_left_framebuffer.length := by
    rw [top_left_framebuffer_length]
    decide
  refine ⟨viewport_default, (List.range defaultConfig.TFT_HEIGHT).map
    (expected_row defaultConfig top_left_framebuffer),
    render_frame_eq defaultConfig top_left_framebuffer hv hfb, ?_, ?_, ?_⟩
  · simp [defaultConfig]
  · refine ⟨expected_row defaultConfig top_left_framebuffer 80,
      range_map_getElem? _ _ _ (by decide), expected_row_length _ _ _, fun c hc => ?_⟩
    have hb : (st7789_viewport defaultConfig).y_pad ≤ 80 ∧
        80 < (st7789_viewport defaultConfig).y_pad + (st7789_viewport defaultConfig).active_h := by
      decide
    have h := expected_row_pixel defaultConfig top_left_framebuffer 80 c hb hc
    rw [top_left_pixels c hc] at h
    exact h
  · intro y hy
    have hyH : y < defaultConfig.TFT_HEIGHT := by
      have : defaultConfig.TFT_HEIGHT = 320 := rfl
      omega
    rw [range_map_getElem? _ _ _ hyH, expected_row_outside]
    · rfl
    · rw [viewport_default]
      simp only
      omega

theorem all_on_framebuffer_length (words : Nat) : (all_on_framebuffer words).length = words := by
  simp only [all_on_framebuffer, List.length_replicate]

/-- Every in-range bit of the all-ones framebuffer is set. -/
theorem all_on_source_bit (words stride sx sy : Nat) (h : sy * stride + sx / 32 < words) :
    source_bit (all_on_framebuffer words) stride sx sy = true := by
  unfold source_bit all_on_framebuffer
  rw [List.getD_eq_getElem _ _ (by simpa using h), List.getElem_replicate]
  have : (4294967295 : Nat) = 2 ^ 32 - 1 := by norm_num
  rw [this, Nat.testBit_two_pow_sub_one]
  simp only [decide_eq_true_eq]
  omega

/-- C4. Rendering a source bitmap in which every bit is set yields a frame in which every
pixel of the active band (rows `y_pad .. y_pad + active_h - 1`, columns
`x_pad .. x_pad + active_w - 1`) is the "on" colour `0xFFFF` and every pixel of the padding
bands is the "off" colour `0x0000`. -/
theorem C4_all_on_frame (cfg : Config) (fb : List Nat)
    (hv : cfg.Valid)
    (hfb : cfg.FB_HEIGHT * src_stride_words cfg ≤ fb.length)
    (hall : ∀ sx sy, sx < cfg.FB_WIDTH → sy < cfg.FB_HEIGHT →
      source_bit fb (src_stride_words cfg) sx sy = true) :
    ∃ rows,
      st7789_spi_render_frame cfg fb = some (frame_trace cfg rows) ∧
      rows.length = cfg.TFT_HEIGHT ∧
      ∀ y c, y < cfg.TFT_HEIGHT → c < cfg.TFT_WIDTH →
        ∃ row, rows[y]? = some row ∧
          row[2 * c]? = some (hi_byte
            (if (st7789_viewport cfg).y_pad ≤ y ∧
                y < (st7789_viewport cfg).y_pad + (st7789_viewport cfg).active_h ∧
                (st7789_viewport cfg).x_pad ≤ c ∧
                c < (st7789_viewport cfg).x_pad + (st7789_viewport cfg).active_w
              then 0xFFFF else 0x0000)) ∧
          row[2 * c + 1]? = some (lo_byte
            (if (st7789_viewport cfg).y_pad ≤ y ∧
                y < (st7789_viewport cfg).y_pad + (st7789_viewport cfg).active_h ∧
                (st7789_viewport cfg).x_pad ≤ c ∧
                c < (st7789_viewport cfg).x_pad + (st7789_viewport cfg).active_w
              then 0xFFFF else 0x0000)) := by
  have hs := src_stride_words_eq cfg hv
  rw [hs] at hfb hall
  have hSW : 0 < cfg.FB_WIDTH := hv.2.2.1
  have hSH : 0 < cfg.FB_HEIGHT := hv.2.2.2.1
  refine ⟨(List.range cfg.TFT_HEIGHT).map (expected_row cfg fb),
    render_frame_eq cfg fb hv hfb, by simp, fun y c hy hc => ?_⟩
  refine ⟨expected_row cfg fb y, range_map_getElem? _ _ _ hy, ?_⟩
  by_cases hb : (st7789_viewport cfg).y_pad ≤ y ∧
      y < (st7789_viewport cfg).y_pad + (st7789_viewport cfg).active_h
  · have hp : expected_pixel cfg fb c y =
        if (st7789_viewport cfg).y_pad ≤ y ∧
            y < (st7789_viewport cfg).y_pad + (st7789_viewport cfg).active_h ∧
            (st7789_viewport cfg).x_pad ≤ c ∧
            c < (st7789_viewport cfg).x_pad + (st7789_viewport cfg).active_w
          then 0xFFFF else 0x0000 := by
      unfold expected_pixel
      by_cases hx : (st7789_viewport cfg).x_pad ≤ c ∧
          c < (st7789_viewport cfg).x_pad + (st7789_viewport cfg).active_w
      · have hsx : (c - (st7789_viewport cfg).x_pad) * cfg.FB_WIDTH
            / (st7789_viewport cfg).active_w < cfg.FB_WIDTH := by
          rw [Nat.div_lt_iff_lt_mul (by omega), Nat.mul_comm cfg.FB_WIDTH]
          exact Nat.mul_lt_mul_of_pos_right (by omega) hSW
        have hsy : (y - (st7789_viewport cfg).y_pad) * cfg.FB_HEIGHT
            / (st7789_viewport cfg).active_h < cfg.FB_HEIGHT := by
          rw [Nat.div_lt_iff_lt_mul (by omega), Nat.mul_comm cfg.FB_HEIGHT]
          exact Nat.mul_lt_mul_of_pos_right (by omega) hSH
        rw [if_pos ⟨hx.1, hx.2, hall _ _ hsx hsy⟩, if_pos ⟨hb.1, hb.2, hx.1, hx.2⟩]
      · rw [if_neg (fun h => hx ⟨h.1, h.2.1⟩), if_neg (fun h => hx ⟨h.2.2.1, h.2.2.2⟩)]
    rw [← hp]
    exact expected_row_pixel cfg fb y c hb hc
  · rw [expected_row_outside cfg fb y hb, if_neg (fun h => hb ⟨h.1, h.2.1⟩),
      List.getElem?_replicate, List.getElem?_replicate,
      if_pos (by omega), if_pos (by omega)]
    exact ⟨rfl, rfl⟩

/-- C4 at the default configuration, for the all-ones framebuffer of 342 * 16 words. -/
theorem C4_all_on_frame_witness :
    ∃ rows,
      st7789_spi_render_frame defaultConfig (all_on_framebuffer 5472)
        = some (frame_trace defaultConfig rows) ∧
      rows.length = defaultConfig.TFT_HEIGHT ∧
      ∀ y c, y < defaultConfig.TFT_HEIGHT → c < defaultConfig.TFT_WIDTH →
        ∃ row, rows[y]? = some row ∧
          row[2 * c]? = some (hi_byte
            (if (st7789_viewport defaultConfig).y_pad ≤ y ∧
                y < (st7789_viewport defaultConfig).y_pad
                  + (st7789_viewport defaultConfig).active_h ∧
                (st7789_viewport defaultConfig).x_pad ≤ c ∧
                c < (st7789_viewport defaultConfig).x_pad
                  + (st7789_viewport defaultConfig).active_w
              then 0xFFFF else 0x0000)) ∧
          row[2 * c + 1]? = some (lo_byte
            (if (st7789_viewport defaultConfig).y_pad ≤ y ∧
                y < (st7789_viewport defaultConfig).y_pad
                  + (st7789_viewport defaultConfig).active_h ∧
                (st7789_viewport defaultConfig).x_pad ≤ c ∧
                c < (st7789_viewport defaultConfig).x_pad
                  + (st7789_viewport defaultConfig).active_w
              then 0xFFFF else 0x0000)) :=
  C4_all_on_frame defaultConfig (all_on_framebuffer 5472) (by decide)
    (by simp only [all_on_framebuffer, List.length_replicate]; decide)
    (fun sx sy hsx hsy => all_on_source_bit 5472 (src_stride_words defaultConfig) sx sy (by
      have e1 : src_stride_words defaultConfig = 16 := by decide
      have e2 : defaultConfig.FB_WIDTH = 512 := rfl
      have e3 : defaultConfig.FB_HEIGHT = 342 := rfl
      rw [e1]
      omega))

/-- C5. Every destination row `y` of the transmitted frame with `y < y_pad` or
`y ≥ y_pad + active_h` consists entirely of zero bytes, whatever the framebuffer holds. -/
theorem C5_rows_outside_band_zero (cfg : Config) (fb : List Nat) (y : Nat)
    (hv : cfg.Valid)
    (hfb : cfg.FB_HEIGHT * src_stride_words cfg ≤ fb.length)
    (hy : y < cfg.TFT_HEIGHT)
    (hout : y < (st7789_viewport cfg).y_pad ∨
      y ≥ (st7789_viewport cfg).y_pad + (st7789_viewport cfg).active_h) :
    ∃ rows,
      st7789_spi_render_frame cfg fb = some (frame_trace cfg rows) ∧
      rows[y]? = some (List.replicate (2 * cfg.TFT_WIDTH) 0) := by
  rw [src_stride_words_eq cfg hv] at hfb
  refine ⟨(List.range cfg.TFT_HEIGHT).map (expected_row cfg fb),
    render_frame_eq cfg fb hv hfb, ?_⟩
  rw [range_map_getElem? _ _ _ hy, expected_row_outside cfg fb y (by omega),
    Nat.mul_comm]

/-- C5 at the default configuration: row 0 of the frame of the all-ones framebuffer. -/
theorem C5_rows_outside_band_zero_witness :
    ∃ rows,
      st7789_spi_render_frame defaultConfig (all_on_framebuffer 5472)
        = some (frame_trace defaultConfig rows) ∧
      rows[0]? = some (List.replicate (2 * defaultConfig.TFT_WIDTH) 0) :=
  C5_rows_outside_band_zero defaultConfig (all_on_framebuffer 5472) 0 (by decide)
    (by simp only [all_on_framebuffer, List.length_replicate]; decide)
    (by decide) (by decide)

/-- C9. The pixel stream between `tft_begin_pixels` and `tft_end_pixels` consists of exactly
`TFT_HEIGHT` raw writes of exactly `2 * TFT_WIDTH` bytes each; the k-th write is
destination row `k` (rows top to bottom), its pixels left to right, two bytes per pixel. -/
theorem C9_pixel_stream_order (cfg : Config) (fb : List Nat)
    (hv : cfg.Valid)
    (hfb : cfg.FB_HEIGHT * src_stride_words cfg ≤ fb.length) :
    ∃ rows : List (List Nat),
      st7789_spi_render_frame cfg fb
        = some (tft_set_addr_window
                  (wrap16 cfg.TFT_X_OFFSET) (wrap16 cfg.TFT_Y_OFFSET)
                  (wrap16 (cfg.TFT_X_OFFSET + cfg.TFT_WIDTH - 1))
                  (wrap16 (cfg.TFT_Y_OFFSET + cfg.TFT_HEIGHT - 1))
                ++ tft_begin_pixels
                ++ rows.map Event.spi_write
                ++ tft_end_pixels) ∧
      rows.length = cfg.TFT_HEIGHT ∧
      ∀ k, k < cfg.TFT_HEIGHT →
        ∃ row, rows[k]? = some row ∧
          row.length = 2 * cfg.TFT_WIDTH ∧
          row = expected_row cfg fb k := by
  rw [src_stride_words_eq cfg hv] at hfb
  refine ⟨(List.range cfg.TFT_HEIGHT).map (expected_row cfg fb),
    render_frame_eq cfg fb hv hfb, by simp, fun k hk => ?_⟩
  exact ⟨expected_row cfg fb k, range_map_getElem? _ _ _ hk,
    by rw [expected_row_length, Nat.mul_comm], rfl⟩

/-- C9 at the default configuration, for the all-ones framebuffer. -/
theorem C9_pixel_stream_order_witness :
    ∃ rows : List (List Nat),
      st7789_spi_render_frame defaultConfig (all_on_framebuffer 5472)
        = some (tft_set_addr_window
                  (wrap16 defaultConfig.TFT_X_OFFSET) (wrap16 defaultConfig.TFT_Y_OFFSET)
                  (wrap16 (defaultConfig.TFT_X_OFFSET + defaultConfig.TFT_WIDTH - 1))
                  (wrap16 (defaultConfig.TFT_Y_OFFSET + defaultConfig.TFT_HEIGHT - 1))
                ++ tft_begin_pixels
                ++ rows.map Event.spi_write
                ++ tft_end_pixels) ∧
      rows.length = defaultConfig.TFT_HEIGHT ∧
      ∀ k, k < defaultConfig.TFT_HEIGHT →
        ∃ row, rows[k]? = some row ∧
          row.length = 2 * defaultConfig.TFT_WIDTH ∧
          row = expected_row defaultConfig (all_on_framebuffer 5472) k :=
  C9_pixel_stream_order defaultConfig (all_on_framebuffer 5472) (by decide)
    (by simp only [all_on_framebuffer, List.length_replicate]; decide)

theorem write_dat_loop_eq (pause : Nat) :
    ∀ (n b : Nat), tft_write_dat_loop pause n b
      = (shifted_msbs n b).flatMap (clock_pulse pause) := by
  intro n
  induction n with
  | zero => intro b; rfl
  | succ n ih =>
    intro b
    simp only [tft_write_dat_loop, shifted_msbs, List.flatMap_cons, ih, clock_pulse]

theorem write_com_loop_eq (pause : Nat) :
    ∀ (n b : Nat), tft_write_com_loop pause n b
      = (shifted_msbs n b).flatMap (clock_pulse pause) := by
  intro n
  induction n with
  | zero => intro b; rfl
  | succ n ih =>
    intro b
    simp only [tft_write_com_loop, shifted_msbs, List.flatMap_cons, ih, clock_pulse]

set_option maxRecDepth 100000 in
/-- Eight rounds of "test bit 7, shift left" visit bits 7 down to 0 of a byte. -/
theorem shifted_msbs_byte : ∀ b, b < 256 → shifted_msbs 8 b = msb_first_bits b := by
  decide

/-- Inside a session every clock pulse is sampled. -/
theorem clock_pulses_sampled (pause : Nat) :
    ∀ (bits : List Bool) (s : BusState), s.cs_asserted = true →
      ((bits.flatMap (clock_pulse pause)).foldl bus_step s).cs_asserted = true ∧
      ((bits.flatMap (clock_pulse pause)).foldl bus_step s).bits = s.bits ++ bits := by
  intro bits
  induction bits with
  | nil => intro s hs; simp [hs]
  | cons b bits ih =>
    intro s hs
    simp only [List.flatMap_cons, List.foldl_append]
    have hstep : (clock_pulse pause b).foldl bus_step s
        = { s with clk_low := false, mosi := b, bits := s.bits ++ [b] } := by
      simp [clock_pulse, bus_step, hs]
    rw [hstep]
    obtain ⟨h1, h2⟩ := ih { s with clk_low := false, mosi := b, bits := s.bits ++ [b] } hs
    rw [h1, h2]
    simp

/-- A receiver of one bit-synchronized transfer samples exactly the bits sent. -/
theorem clocked_bits_transfer (pause : Nat) (bits : List Bool) :
    clocked_bits (bit_transfer pause bits) = bits := by
  unfold clocked_bits bit_transfer
  simp only [List.foldl_append]
  obtain ⟨h1, h2⟩ := clock_pulses_sampled pause bits
    ([Event.put_pixel_red 1, Event.gpio_put Pin.TFT_SPI_CS false].foldl bus_step
      { cs_asserted := false, clk_low := false, mosi := false, bits := [] }) rfl
  simp only [List.foldl_cons, List.foldl_nil, bus_step]
  simp only [List.foldl_cons, List.foldl_nil, bus_step] at h2
  rw [h2]
  rfl

/-- C6. For every data byte `b`, `tft_write_dat` asserts chip-select, emits exactly nine
clock pulses (data line set, clock low, clock high) and releases chip-select; the data
line is high for the first pulse and carries bits 7, 6, ..., 0 of `b` for the following
eight; for `0xA5` these eight bits are 1,0,1,0,0,1,0,1. -/
theorem C6_write_dat_nine_pulses (pause b : Nat) (hb : b < 256) :
    tft_write_dat pause b = bit_transfer pause (true :: msb_first_bits b) ∧
    clocked_bits (tft_write_dat pause b) = true :: msb_first_bits b ∧
    (clocked_bits (tft_write_dat pause b)).length = 9 ∧
    msb_first_bits 0xA5 = [true, false, true, false, false, true, false, true] := by
  have h : tft_write_dat pause b = bit_transfer pause (true :: msb_first_bits b) := by
    unfold tft_write_dat bit_transfer
    rw [write_dat_loop_eq, shifted_msbs_byte b hb]
    rfl
  refine ⟨h, ?_, ?_, by decide⟩
  · rw [h, clocked_bits_transfer]
  · rw [h, clocked_bits_transfer]
    simp [msb_first_bits]

/-- C6 for the byte `0xA5` with a pause of 1 microsecond. -/
theorem C6_write_dat_nine_pulses_witness :
    tft_write_dat 1 0xA5 = bit_transfer 1 (true :: msb_first_bits 0xA5) ∧
    clocked_bits (tft_write_dat 1 0xA5) = true :: msb_first_bits 0xA5 ∧
    (clocked_bits (tft_write_dat 1 0xA5)).length = 9 ∧
    msb_first_bits 0xA5 = [true, false, true, false, false, true, false, true] :=
  C6_write_dat_nine_pulses 1 0xA5 (by decide)

/-- C7, as stated, fails: for the command byte `0xA5` the trace of `tft_write_com` does not
consist of 8 clock pulses carrying bits 7 to 0 of the byte; it has 9 pulses. -/
theorem C7_counterexample :
    ¬ ((clocked_bits (tft_write_com 1 0xA5)).length = 8 ∧
        clocked_bits (tft_write_com 1 0xA5) = msb_first_bits 0xA5) ∧
    (clocked_bits (tft_write_com 1 0xA5)).length = 9 := by
  decide

/-- C7, amended. For every command byte `c`, `tft_write_com` asserts chip-select, emits
exactly nine clock pulses and releases chip-select; the data line is low for the first
pulse and carries bits 7, 6, ..., 0 of `c` for the following eight. -/
theorem C7_write_com_nine_pulses (pause c : Nat) (hc : c < 256) :
    tft_write_com pause c = bit_transfer pause (false :: msb_first_bits c) ∧
    clocked_bits (tft_write_com pause c) = false :: msb_first_bits c ∧
    (clocked_bits (tft_write_com pause c)).length = 9 := by
  have h : tft_write_com pause c = bit_transfer pause (false :: msb_first_bits c) := by
    unfold tft_write_com bit_transfer
    rw [write_com_loop_eq, shifted_msbs_byte c hc]
    rfl
  refine ⟨h, ?_, ?_⟩
  · rw [h, clocked_bits_transfer]
  · rw [h, clocked_bits_transfer]
    simp [msb_first_bits]

/-- C7, amended, for the command byte `0x2C` with a pause of 1 microsecond. -/
theorem C7_write_com_nine_pulses_witness :
    tft_write_com 1 0x2C = bit_transfer 1 (false :: msb_first_bits 0x2C) ∧
    clocked_bits (tft_write_com 1 0x2C) = false :: msb_first_bits 0x2C ∧
    (clocked_bits (tft_write_com 1 0x2C)).length = 9 :=
  C7_write_com_nine_pulses 1 0x2C (by decide)

theorem byte_pair (v : Nat) (hv : v < 65536) :
    wrap8 (v >>> 8) = v >>> 8 ∧ wrap8 (v &&& 0xFF) = v &&& 0xFF ∧
    (v >>> 8) * 256 + (v &&& 0xFF) = v := by
  have e1 : v >>> 8 = v / 256 := Nat.shiftRight_eq_div_pow v 8
  have e2 : v &&& 0xFF = v % 256 := Nat.and_pow_two_sub_one_eq_mod v 8
  rw [e1, e2]
  unfold wrap8
  refine ⟨?_, ?_, ?_⟩ <;> omega

/-- C8. For all 16-bit coordinates, `tft_set_addr_window` issues, in this order and nothing
else, command `0x2A`, the data bytes `[x0 >> 8, x0 & 0xFF, x1 >> 8, x1 & 0xFF]`, command
`0x2B` and the data bytes `[y0 >> 8, y0 & 0xFF, y1 >> 8, y1 & 0xFF]`; each coordinate is
recovered from its byte pair as `high * 256 + low`. -/
theorem C8_set_addr_window (x0 y0 x1 y1 : Nat)
    (hx0 : x0 < 65536) (hy0 : y0 < 65536) (hx1 : x1 < 65536) (hy1 : y1 < 65536) :
    tft_set_addr_window x0 y0 x1 y1
      = tft_write_command 0x2A
        ++ tft_write_data [x0 >>> 8, x0 &&& 0xFF, x1 >>> 8, x1 &&& 0xFF]
        ++ tft_write_command 0x2B
        ++ tft_write_data [y0 >>> 8, y0 &&& 0xFF, y1 >>> 8, y1 &&& 0xFF] ∧
    (x0 >>> 8) * 256 + (x0 &&& 0xFF) = x0 ∧
    (x1 >>> 8) * 256 + (x1 &&& 0xFF) = x1 ∧
    (y0 >>> 8) * 256 + (y0 &&& 0xFF) = y0 ∧
    (y1 >>> 8) * 256 + (y1 &&& 0xFF) = y1 := by
  obtain ⟨a0, b0, c0⟩ := byte_pair x0 hx0
  obtain ⟨a1, b1, c1⟩ := byte_pair x1 hx1
  obtain ⟨a2, b2, c2⟩ := byte_pair y0 hy0
  obtain ⟨a3, b3, c3⟩ := byte_pair y1 hy1
  refine ⟨?_, c0, c1, c2, c3⟩
  unfold tft_set_addr_window
  rw [a0, b0, a1, b1, a2, b2, a3, b3]

/-- C8 for the full default panel: columns 0 to 239, rows 0 to 319. -/
theorem C8_set_addr_window_witness :
    tft_set_addr_window 0 0 239 319
      = tft_write_command 0x2A
        ++ tft_write_data [0 >>> 8, 0 &&& 0xFF, 239 >>> 8, 239 &&& 0xFF]
        ++ tft_write_command 0x2B
        ++ tft_write_data [0 >>> 8, 0 &&& 0xFF, 319 >>> 8, 319 &&& 0xFF] ∧
    (0 >>> 8) * 256 + (0 &&& 0xFF) = 0 ∧
    (239 >>> 8) * 256 + (239 &&& 0xFF) = 239 ∧
    (0 >>> 8) * 256 + (0 &&& 0xFF) = 0 ∧
    (319 >>> 8) * 256 + (319 &&& 0xFF) = 319 :=
  C8_set_addr_window 0 0 239 319 (by decide) (by decide) (by decide) (by decide)

/-- Raw writes inside an open session keep it open. -/
theorem session_rows (rows : List (List Nat)) (closed : Nat) :
    (rows.map Event.spi_write).foldl session_step (some (true, closed)) = some (true, closed) := by
  induction rows with
  | nil => rfl
  | cons r rows ih =>
    simp only [List.map_cons, List.foldl_cons, session_step]
    exact ih

/-- Clock pulses inside an open session keep it open. -/
theorem session_pulses (pause : Nat) (bits : List Bool) (closed : Nat) :
    (bits.flatMap (clock_pulse pause)).foldl session_step (some (true, closed))
      = some (true, closed) := by
  induction bits with
  | nil => rfl
  | cons b bits ih =>
    simp only [List.flatMap_cons, List.foldl_append]
    have : (clock_pulse pause b).foldl session_step (some (true, closed))
        = some (true, closed) := rfl
    rw [this, ih]

theorem sessions_bit_transfer (pause : Nat) (bits : List Bool) :
    sessions (bit_transfer pause bits) = some 1 := by
  unfold sessions bit_transfer
  simp only [List.foldl_append]
  have h0 : [Event.put_pixel_red 1, Event.gpio_put Pin.TFT_SPI_CS false].foldl session_step
      (some (false, 0)) = some (true, 0) := rfl
  rw [h0, session_pulses]
  rfl

theorem sessions_frame_trace (cfg : Config) (rows : List (List Nat)) :
    sessions (frame_trace cfg rows) = some 5 := by
  unfold sessions frame_trace
  simp only [List.foldl_append]
  have h0 : tft_begin_pixels.foldl session_step
      ((tft_set_addr_window (wrap16 cfg.TFT_X_OFFSET) (wrap16 cfg.TFT_Y_OFFSET)
        (wrap16 (cfg.TFT_X_OFFSET + cfg.TFT_WIDTH - 1))
        (wrap16 (cfg.TFT_Y_OFFSET + cfg.TFT_HEIGHT - 1))).foldl session_step (some (false, 0)))
      = some (true, 4) := rfl
  rw [h0, session_rows]
  rfl

/-- C10. Started with chip-select released, the trace of each framer operation and of a
whole `st7789_spi_render_frame` call respects the chip-select discipline: assert and
release strictly alternate, beginning with an assert and ending with a release, no session
is opened while another is open, every bus write lies inside a session, and chip-select is
released on return. The framer operations are one session each, `tft_set_addr_window` is
four, a rendered frame is five. -/
theorem C10_chip_select_sessions (cfg : Config) (fb : List Nat)
    (pause command comm datt x0 y0 x1 y1 : Nat) (data : List Nat)
    (hv : cfg.Valid)
    (hfb : cfg.FB_HEIGHT * src_stride_words cfg ≤ fb.length) :
    sessions (tft_write_command command) = some 1 ∧
    sessions (tft_write_data data) = some 1 ∧
    sessions (tft_write_com pause comm) = some 1 ∧
    sessions (tft_write_dat pause datt) = some 1 ∧
    sessions (tft_set_addr_window x0 y0 x1 y1) = some 4 ∧
    ∃ tr, st7789_spi_render_frame cfg fb = some tr ∧ sessions tr = some 5 := by
  rw [src_stride_words_eq cfg hv] at hfb
  refine ⟨rfl, rfl, ?_, ?_, rfl, _, render_frame_eq cfg fb hv hfb, sessions_frame_trace _ _⟩
  · have h : tft_write_com pause comm = bit_transfer pause (false :: shifted_msbs 8 comm) := by
      unfold tft_write_com bit_transfer
      rw [write_com_loop_eq]
      rfl
    rw [h, sessions_bit_transfer]
  · have h : tft_write_dat pause datt = bit_transfer pause (true :: shifted_msbs 8 datt) := by
      unfold tft_write_dat bit_transfer
      rw [write_dat_loop_eq]
      rfl
    rw [h, sessions_bit_transfer]

/-- C10 at the default configuration, for the all-ones framebuffer, the command `0x2A`, the
bytes `0x2C` and `0xA5` on the bit-synchronized transport and the full-panel window. -/
theorem C10_chip_select_sessions_witness :
    sessions (tft_write_command 0x2A) = some 1 ∧
    sessions (tft_write_data [0, 0, 0, 239]) = some 1 ∧
    sessions (tft_write_com 1 0x2C) = some 1 ∧
    sessions (tft_write_dat 1 0xA5) = some 1 ∧
    sessions (tft_set_addr_window 0 0 239 319) = some 4 ∧
    ∃ tr, st7789_spi_render_frame defaultConfig (all_on_framebuffer 5472) = some tr ∧
      sessions tr = some 5 :=
  C10_chip_select_sessions defaultConfig (all_on_framebuffer 5472) 1 0x2A 0x2C 0xA5
    0 0 239 319 [0, 0, 0, 239] (by decide)
    (by simp only [all_on_framebuffer, List.length_replicate]; decide)

/-- Inside the vertical band the row body runs the column loop on row `st7789_src_y`. -/
theorem render_line_in_band (cfg : Config) (fb : List Nat) (y : Nat)
    (hb : y ≥ (st7789_viewport cfg).y_pad ∧
      y < wrap32 ((st7789_viewport cfg).y_pad + (st7789_viewport cfg).active_h)) :
    st7789_render_line cfg fb y
      = st7789_render_columns cfg fb (st7789_src_y cfg y) (st7789_viewport cfg).active_w 0
          (List.replicate (cfg.TFT_WIDTH * 2) 0) := by
  unfold st7789_render_line st7789_src_y
  simp only [if_pos hb]

/-- One iteration of the column loop samples `(st7789_src_x, src_y)` and stores the two
bytes at `st7789_out_x * 2` and `st7789_out_x * 2 + 1`. -/
theorem render_columns_step (cfg : Config) (fb : List Nat) (sy n x : Nat) (buf : List Nat) :
    st7789_render_columns cfg fb sy (n + 1) x buf
      = match st7789_sample_pixel fb (st7789_src_x cfg x) sy (src_stride_words cfg) with
        | none => none
        | some color =>
          match store_byte buf (wrap32 (st7789_out_x cfg x * 2)) (wrap8 (color >>> 8)) with
          | none => none
          | some line1 =>
            match store_byte line1 (wrap32 (st7789_out_x cfg x * 2 + 1))
                (wrap8 (color &&& 0xFF)) with
            | none => none
            | some line2 => st7789_render_columns cfg fb sy n (x + 1) line2 :=
  rfl

/-- The word read by `st7789_sample_pixel` is the one at `sample_word_index`. -/
theorem sample_pixel_reads (fb : List Nat) (sx sy stride : Nat) :
    st7789_sample_pixel fb sx sy stride
      = match fb[sample_word_index sx sy stride]? with
        | none => none
        | some word =>
          some (if ((word >>> sub32 31 (sx &&& 31)) &&& 0x1) != 0 then 0xFFFF else 0x0000) :=
  rfl

/-- C11. Before any pixel byte is written, `st7789_spi_render_frame` sets the address window
to the full destination rectangle `(X_off, Y_off, X_off + W_dst - 1, Y_off + H_dst - 1)` and
then begins the frame: `tft_begin_pixels` sends `0x2C` with the mode line low (command),
then drives the mode line high (data) and returns with chip-select asserted; the session
stays open through every row and is closed only by `tft_end_pixels` after the last row. -/
theorem C11_window_then_begin (cfg : Config) (fb : List Nat)
    (hv : cfg.Valid)
    (hfb : cfg.FB_HEIGHT * src_stride_words cfg ≤ fb.length)
    (hx : cfg.TFT_X_OFFSET + cfg.TFT_WIDTH ≤ 65536)
    (hy : cfg.TFT_Y_OFFSET + cfg.TFT_HEIGHT ≤ 65536) :
    ∃ rows : List (List Nat),
      st7789_spi_render_frame cfg fb
        = some (tft_set_addr_window cfg.TFT_X_OFFSET cfg.TFT_Y_OFFSET
                  (cfg.TFT_X_OFFSET + cfg.TFT_WIDTH - 1)
                  (cfg.TFT_Y_OFFSET + cfg.TFT_HEIGHT - 1)
                ++ tft_begin_pixels
                ++ rows.map Event.spi_write
                ++ tft_end_pixels) ∧
      rows.length = cfg.TFT_HEIGHT ∧
      tft_begin_pixels
        = [Event.gpio_put Pin.TFT_DC false,
           Event.gpio_put Pin.TFT_SPI_CS false,
           Event.spi_write [0x2C],
           Event.gpio_put Pin.TFT_DC true] ∧
      tft_end_pixels = [Event.gpio_put Pin.TFT_SPI_CS true] ∧
      (∀ k, k ≤ rows.length →
        (tft_set_addr_window cfg.TFT_X_OFFSET cfg.TFT_Y_OFFSET
            (cfg.TFT_X_OFFSET + cfg.TFT_WIDTH - 1)
            (cfg.TFT_Y_OFFSET + cfg.TFT_HEIGHT - 1)
          ++ tft_begin_pixels
          ++ (rows.take k).map Event.spi_write).foldl session_step (some (false, 0))
          = some (true, 4)) := by
  have hW : 0 < cfg.TFT_WIDTH := hv.1
  have hH : 0 < cfg.TFT_HEIGHT := hv.2.1
  rw [src_stride_words_eq cfg hv] at hfb
  have e1 : wrap16 cfg.TFT_X_OFFSET = cfg.TFT_X_OFFSET := Nat.mod_eq_of_lt (by omega)
  have e2 : wrap16 cfg.TFT_Y_OFFSET = cfg.TFT_Y_OFFSET := Nat.mod_eq_of_lt (by omega)
  have e3 : wrap16 (cfg.TFT_X_OFFSET + cfg.TFT_WIDTH - 1)
      = cfg.TFT_X_OFFSET + cfg.TFT_WIDTH - 1 := Nat.mod_eq_of_lt (by omega)
  have e4 : wrap16 (cfg.TFT_Y_OFFSET + cfg.TFT_HEIGHT - 1)
      = cfg.TFT_Y_OFFSET + cfg.TFT_HEIGHT - 1 := Nat.mod_eq_of_lt (by omega)
  have hframe := render_frame_eq cfg fb hv hfb
  unfold frame_trace at hframe
  rw [e1, e2, e3, e4] at hframe
  refine ⟨(List.range cfg.TFT_HEIGHT).map (expected_row cfg fb), hframe, by simp, rfl, rfl,
    fun k _ => ?_⟩
  simp only [List.foldl_append]
  have h0 : tft_begin_pixels.foldl session_step
      ((tft_set_addr_window cfg.TFT_X_OFFSET cfg.TFT_Y_OFFSET
        (cfg.TFT_X_OFFSET + cfg.TFT_WIDTH - 1)
        (cfg.TFT_Y_OFFSET + cfg.TFT_HEIGHT - 1)).foldl session_step (some (false, 0)))
      = some (true, 4) := rfl
  rw [h0, session_rows]

/-- C11 at the default configuration, for the all-ones framebuffer. -/
theorem C11_window_then_begin_witness :
    ∃ rows : List (List Nat),
      st7789_spi_render_frame defaultConfig (all_on_framebuffer 5472)
        = some (tft_set_addr_window defaultConfig.TFT_X_OFFSET defaultConfig.TFT_Y_OFFSET
                  (defaultConfig.TFT_X_OFFSET + defaultConfig.TFT_WIDTH - 1)
                  (defaultConfig.TFT_Y_OFFSET + defaultConfig.TFT_HEIGHT - 1)
                ++ tft_begin_pixels
                ++ rows.map Event.spi_write
                ++ tft_end_pixels) ∧
      rows.length = defaultConfig.TFT_HEIGHT ∧
      tft_begin_pixels
        = [Event.gpio_put Pin.TFT_DC false,
           Event.gpio_put Pin.TFT_SPI_CS false,
           Event.spi_write [0x2C],
           Event.gpio_put Pin.TFT_DC true] ∧
      tft_end_pixels = [Event.gpio_put Pin.TFT_SPI_CS true] ∧
      (∀ k, k ≤ rows.length →
        (tft_set_addr_window defaultConfig.TFT_X_OFFSET defaultConfig.TFT_Y_OFFSET
            (defaultConfig.TFT_X_OFFSET + defaultConfig.TFT_WIDTH - 1)
            (defaultConfig.TFT_Y_OFFSET + defaultConfig.TFT_HEIGHT - 1)
          ++ tft_begin_pixels
          ++ (rows.take k).map Event.spi_write).foldl session_step (some (false, 0))
          = some (true, 4)) :=
  C11_window_then_begin defaultConfig (all_on_framebuffer 5472) (by decide)
    (by simp only [all_on_framebuffer, List.length_replicate]; decide)
    (by decide) (by decide)

/-- C12. For destination rows `y1 ≤ y2` inside the vertical band the source rows computed
by the renderer satisfy `src_y(y1) ≤ src_y(y2)`; the `uint32_t` computation does not wrap
there and equals `(y - y_pad) * FB_HEIGHT / active_h`. -/
theorem C12_src_y_monotone (cfg : Config) (y1 y2 : Nat)
    (hW : 0 < cfg.TFT_WIDTH) (hH : 0 < cfg.TFT_HEIGHT)
    (hSW : 0 < cfg.FB_WIDTH) (hSH : 0 < cfg.FB_HEIGHT)
    (h1 : cfg.TFT_WIDTH * cfg.FB_HEIGHT < 2147483648)
    (h2 : cfg.TFT_HEIGHT * cfg.FB_WIDTH < 2147483648)
    (h4 : cfg.TFT_HEIGHT * cfg.FB_HEIGHT ≤ 4294967296)
    (hy1 : (st7789_viewport cfg).y_pad ≤ y1) (h12 : y1 ≤ y2)
    (hy2 : y2 < (st7789_viewport cfg).y_pad + (st7789_viewport cfg).active_h) :
    st7789_src_y cfg y1 ≤ st7789_src_y cfg y2 ∧
    st7789_src_y cfg y1
      = (y1 - (st7789_viewport cfg).y_pad) * cfg.FB_HEIGHT / (st7789_viewport cfg).active_h ∧
    st7789_src_y cfg y2
      = (y2 - (st7789_viewport cfg).y_pad) * cfg.FB_HEIGHT / (st7789_viewport cfg).active_h := by
  obtain ⟨-, hah, -, -, hyp⟩ := viewport_bounds cfg hW hH hSW hSH h1 h2
  have hHlt : cfg.TFT_HEIGHT < 2147483648 :=
    lt_of_le_of_lt (Nat.le_mul_of_pos_right _ hSW) h2
  have hexact : ∀ y, (st7789_viewport cfg).y_pad ≤ y →
      y < (st7789_viewport cfg).y_pad + (st7789_viewport cfg).active_h →
      st7789_src_y cfg y
        = (y - (st7789_viewport cfg).y_pad) * cfg.FB_HEIGHT
            / (st7789_viewport cfg).active_h := by
    intro y ha hb
    have hyH : y < cfg.TFT_HEIGHT := by omega
    have e1 : sub32 y (st7789_viewport cfg).y_pad = y - (st7789_viewport cfg).y_pad :=
      sub32_of_le ha (by omega)
    have hlt : (y - (st7789_viewport cfg).y_pad) * cfg.FB_HEIGHT
        < (st7789_viewport cfg).active_h * cfg.FB_HEIGHT :=
      Nat.mul_lt_mul_of_pos_right (by omega) hSH
    have hle : (st7789_viewport cfg).active_h * cfg.FB_HEIGHT
        ≤ cfg.TFT_HEIGHT * cfg.FB_HEIGHT := Nat.mul_le_mul_right _ hah
    unfold st7789_src_y
    rw [e1, wrap32_of_lt (by omega)]
  rw [hexact y1 hy1 (by omega), hexact y2 (by omega) hy2]
  exact ⟨Nat.div_le_div_right (Nat.mul_le_mul_right _ (by omega)), rfl, rfl⟩

/-- C12 at the default configuration, for rows 100 and 101. -/
theorem C12_src_y_monotone_witness :
    st7789_src_y defaultConfig 100 ≤ st7789_src_y defaultConfig 101 ∧
    st7789_src_y defaultConfig 100
      = (100 - (st7789_viewport defaultConfig).y_pad) * defaultConfig.FB_HEIGHT
          / (st7789_viewport defaultConfig).active_h ∧
    st7789_src_y defaultConfig 101
      = (101 - (st7789_viewport defaultConfig).y_pad) * defaultConfig.FB_HEIGHT
          / (st7789_viewport defaultConfig).active_h :=
  C12_src_y_monotone defaultConfig 100 101 (by decide) (by decide) (by decide) (by decide)
    (by decide) (by decide) (by decide) (by decide) (by decide) (by decide)

/-- C13. For positive resolutions (the `int` products of the fit step not overflowing) the
unsigned subtractions `TFT_WIDTH - active_w` and `TFT_HEIGHT - active_h` do not wrap, and
the padding on each axis is `(destination_dim - active_dim) / 2`, truncated. -/
theorem C13_padding (cfg : Config)
    (hW : 0 < cfg.TFT_WIDTH) (hH : 0 < cfg.TFT_HEIGHT)
    (hSW : 0 < cfg.FB_WIDTH) (hSH : 0 < cfg.FB_HEIGHT)
    (h1 : cfg.TFT_WIDTH * cfg.FB_HEIGHT < 2147483648)
    (h2 : cfg.TFT_HEIGHT * cfg.FB_WIDTH < 2147483648) :
    (st7789_viewport cfg).active_w ≤ cfg.TFT_WIDTH ∧
    (st7789_viewport cfg).active_h ≤ cfg.TFT_HEIGHT ∧
    sub32 cfg.TFT_WIDTH (st7789_viewport cfg).active_w
      = cfg.TFT_WIDTH - (st7789_viewport cfg).active_w ∧
    sub32 cfg.TFT_HEIGHT (st7789_viewport cfg).active_h
      = cfg.TFT_HEIGHT - (st7789_viewport cfg).active_h ∧
    (st7789_viewport cfg).x_pad = (cfg.TFT_WIDTH - (st7789_viewport cfg).active_w) / 2 ∧
    (st7789_viewport cfg).y_pad = (cfg.TFT_HEIGHT - (st7789_viewport cfg).active_h) / 2 := by
  obtain ⟨a, b, -, c, d⟩ := viewport_bounds cfg hW hH hSW hSH h1 h2
  have hWlt : cfg.TFT_WIDTH < 2147483648 :=
    lt_of_le_of_lt (Nat.le_mul_of_pos_right _ hSH) h1
  have hHlt : cfg.TFT_HEIGHT < 2147483648 :=
    lt_of_le_of_lt (Nat.le_mul_of_pos_right _ hSW) h2
  exact ⟨a, b, sub32_of_le a (by omega), sub32_of_le b (by omega), c, d⟩

/-- C13 at a 320 by 240 destination, where the padding is vertical and odd: 27 / 2 = 13. -/
theorem C13_padding_witness :
    (st7789_viewport landscape_config).active_w ≤ landscape_config.TFT_WIDTH ∧
    (st7789_viewport landscape_config).active_h ≤ landscape_config.TFT_HEIGHT ∧
    sub32 landscape_config.TFT_WIDTH (st7789_viewport landscape_config).active_w
      = landscape_config.TFT_WIDTH - (st7789_viewport landscape_config).active_w ∧
    sub32 landscape_config.TFT_HEIGHT (st7789_viewport landscape_config).active_h
      = landscape_config.TFT_HEIGHT - (st7789_viewport landscape_config).active_h ∧
    (st7789_viewport landscape_config).x_pad
      = (landscape_config.TFT_WIDTH - (st7789_viewport landscape_config).active_w) / 2 ∧
    (st7789_viewport landscape_config).y_pad
      = (landscape_config.TFT_HEIGHT - (st7789_viewport landscape_config).active_h) / 2 :=
  C13_padding landscape_config
    (by decide) (by decide) (by decide) (by decide) (by decide) (by decide)

/-- When the aspect ratios match exactly the viewport is the whole destination. -/
theorem viewport_matched (cfg : Config)
    (hW : 0 < cfg.TFT_WIDTH) (hH : 0 < cfg.TFT_HEIGHT)
    (hSW : 0 < cfg.FB_WIDTH) (hSH : 0 < cfg.FB_HEIGHT)
    (heq : cfg.TFT_WIDTH * cfg.FB_HEIGHT = cfg.TFT_HEIGHT * cfg.FB_WIDTH)
    (h1 : cfg.TFT_WIDTH * cfg.FB_HEIGHT < 2147483648) :
    st7789_viewport cfg
      = { active_w := cfg.TFT_WIDTH, active_h := cfg.TFT_HEIGHT, x_pad := 0, y_pad := 0 } := by
  have hdiv : cfg.TFT_WIDTH * cfg.FB_HEIGHT / cfg.FB_WIDTH = cfg.TFT_HEIGHT := by
    rw [heq]
    exact Nat.mul_div_cancel _ hSW
  rw [viewport_exact cfg hW hH hSW hSH h1 (by omega), hdiv, if_neg (lt_irrefl _)]
  simp

/-- With the viewport equal to the destination and no wrap in the two products, the
renderer's source coordinates are the ratio formulas. -/
theorem matched_mapping (cfg : Config)
    (hW : 0 < cfg.TFT_WIDTH) (hH : 0 < cfg.TFT_HEIGHT)
    (hSW : 0 < cfg.FB_WIDTH) (hSH : 0 < cfg.FB_HEIGHT)
    (heq : cfg.TFT_WIDTH * cfg.FB_HEIGHT = cfg.TFT_HEIGHT * cfg.FB_WIDTH)
    (h1 : cfg.TFT_WIDTH * cfg.FB_HEIGHT < 2147483648)
    (hx : cfg.TFT_WIDTH * cfg.FB_WIDTH ≤ 4294967296)
    (hy : cfg.TFT_HEIGHT * cfg.FB_HEIGHT ≤ 4294967296) :
    (∀ x, x < cfg.TFT_WIDTH → st7789_src_x cfg x = x * cfg.FB_WIDTH / cfg.TFT_WIDTH) ∧
    (∀ y, y < cfg.TFT_HEIGHT → st7789_src_y cfg y = y * cfg.FB_HEIGHT / cfg.TFT_HEIGHT) := by
  have hvp := viewport_matched cfg hW hH hSW hSH heq h1
  have hHlt : cfg.TFT_HEIGHT < 2147483648 :=
    lt_of_le_of_lt (Nat.le_mul_of_pos_right _ hSW) (by omega)
  constructor
  · intro x hxlt
    have hlt : x * cfg.FB_WIDTH < cfg.TFT_WIDTH * cfg.FB_WIDTH :=
      Nat.mul_lt_mul_of_pos_right hxlt hSW
    unfold st7789_src_x
    rw [hvp, wrap32_of_lt (by omega)]
  · intro y hylt
    have hlt : y * cfg.FB_HEIGHT < cfg.TFT_HEIGHT * cfg.FB_HEIGHT :=
      Nat.mul_lt_mul_of_pos_right hylt hSH
    unfold st7789_src_y
    rw [hvp]
    simp only
    rw [sub32_of_le (Nat.zero_le _) (by omega), Nat.sub_zero, wrap32_of_lt (by omega)]

/-- C14. For positive resolutions whose aspect ratios match exactly
(`W_dst * H_src = H_dst * W_src`, the `int` product of the fit step not overflowing), the
fit step yields `active_w = W_dst` and `active_h = H_dst`, so `x_pad = 0` and `y_pad = 0`,
and every destination pixel `(x, y)` maps to the source pixel
`(x * W_src / W_dst, y * H_src / H_dst)`. The source resolution is the 512 by 342 that
`tft_2p.c` fixes, or any other for which the two scaling products fit in 32 bits. -/
theorem C14_matched_aspect (cfg : Config)
    (hW : 0 < cfg.TFT_WIDTH) (hH : 0 < cfg.TFT_HEIGHT)
    (hSW : 0 < cfg.FB_WIDTH) (hSH : 0 < cfg.FB_HEIGHT)
    (heq : cfg.TFT_WIDTH * cfg.FB_HEIGHT = cfg.TFT_HEIGHT * cfg.FB_WIDTH)
    (h1 : cfg.TFT_WIDTH * cfg.FB_HEIGHT < 2147483648)
    (hsrc : (cfg.FB_WIDTH = 512 ∧ cfg.FB_HEIGHT = 342) ∨
      (cfg.TFT_WIDTH * cfg.FB_WIDTH ≤ 4294967296 ∧
        cfg.TFT_HEIGHT * cfg.FB_HEIGHT ≤ 4294967296)) :
    (st7789_viewport cfg).active_w = cfg.TFT_WIDTH ∧
    (st7789_viewport cfg).active_h = cfg.TFT_HEIGHT ∧
    (st7789_viewport cfg).x_pad = 0 ∧
    (st7789_viewport cfg).y_pad = 0 ∧
    (∀ x, x < cfg.TFT_WIDTH →
      st7789_src_x cfg x = x * cfg.FB_WIDTH / cfg.TFT_WIDTH ∧ st7789_out_x cfg x = x) ∧
    (∀ y, y < cfg.TFT_HEIGHT → st7789_src_y cfg y = y * cfg.FB_HEIGHT / cfg.TFT_HEIGHT) := by
  have hbounds : cfg.TFT_WIDTH * cfg.FB_WIDTH ≤ 4294967296 ∧
      cfg.TFT_HEIGHT * cfg.FB_HEIGHT ≤ 4294967296 := by
    rcases hsrc with ⟨hFW, hFH⟩ | hb
    · rw [hFW, hFH] at heq
      rw [hFH] at h1
      rw [hFW, hFH]
      constructor <;> omega
    · exact hb
  obtain ⟨hx, hy⟩ := hbounds
  have hvp := viewport_matched cfg hW hH hSW hSH heq h1
  obtain ⟨mx, my⟩ := matched_mapping cfg hW hH hSW hSH heq h1 hx hy
  have hWlt : cfg.TFT_WIDTH < 2147483648 :=
    lt_of_le_of_lt (Nat.le_mul_of_pos_right _ hSH) h1
  refine ⟨by rw [hvp], by rw [hvp], by rw [hvp], by rw [hvp], fun x hxlt => ⟨mx x hxlt, ?_⟩, my⟩
  unfold st7789_out_x
  rw [hvp]
  simp only [Nat.add_zero]
  exact wrap32_of_lt (by omega)

/-- C14 for the source's 512 by 342 on a 256 by 171 destination. -/
theorem C14_matched_aspect_witness :
    (st7789_viewport matched_config).active_w = matched_config.TFT_WIDTH ∧
    (st7789_viewport matched_config).active_h = matched_config.TFT_HEIGHT ∧
    (st7789_viewport matched_config).x_pad = 0 ∧
    (st7789_viewport matched_config).y_pad = 0 ∧
    (∀ x, x < matched_config.TFT_WIDTH →
      st7789_src_x matched_config x
        = x * matched_config.FB_WIDTH / matched_config.TFT_WIDTH ∧
      st7789_out_x matched_config x = x) ∧
    (∀ y, y < matched_config.TFT_HEIGHT →
      st7789_src_y matched_config y
        = y * matched_config.FB_HEIGHT / matched_config.TFT_HEIGHT) :=
  C14_matched_aspect matched_config
    (by decide) (by decide) (by decide) (by decide) (by decide) (by decide)
    (Or.inl ⟨rfl, rfl⟩)

/-- C15. When source and destination resolutions are equal (`W_src = W_dst` and
`H_src = H_dst`, the `int` product of the fit step not overflowing), the renderer's
computation yields zero padding on both axes and an identity mapping: `src_x = x` for
every column `x < W_dst` and `src_y = y` for every row `y < H_dst`. The source resolution
is the 512 by 342 that `tft_2p.c` fixes, or any other, such as 100 by 100, for which the
two scaling products fit in 32 bits. -/
theorem C15_equal_resolution_identity (cfg : Config)
    (hWeq : cfg.FB_WIDTH = cfg.TFT_WIDTH) (hHeq : cfg.FB_HEIGHT = cfg.TFT_HEIGHT)
    (hW : 0 < cfg.TFT_WIDTH) (hH : 0 < cfg.TFT_HEIGHT)
    (h1 : cfg.TFT_WIDTH * cfg.TFT_HEIGHT < 2147483648)
    (hsrc : (cfg.FB_WIDTH = 512 ∧ cfg.FB_HEIGHT = 342) ∨
      (cfg.TFT_WIDTH * cfg.FB_WIDTH ≤ 4294967296 ∧
        cfg.TFT_HEIGHT * cfg.FB_HEIGHT ≤ 4294967296)) :
    (st7789_viewport cfg).x_pad = 0 ∧
    (st7789_viewport cfg).y_pad = 0 ∧
    (st7789_viewport cfg).active_w = cfg.TFT_WIDTH ∧
    (st7789_viewport cfg).active_h = cfg.TFT_HEIGHT ∧
    (∀ x, x < cfg.TFT_WIDTH → st7789_src_x cfg x = x) ∧
    (∀ y, y < cfg.TFT_HEIGHT → st7789_src_y cfg y = y) := by
  have hSW : 0 < cfg.FB_WIDTH := by omega
  have hSH : 0 < cfg.FB_HEIGHT := by omega
  have heq : cfg.TFT_WIDTH * cfg.FB_HEIGHT = cfg.TFT_HEIGHT * cfg.FB_WIDTH := by
    rw [hWeq, hHeq, Nat.mul_comm]
  have h1' : cfg.TFT_WIDTH * cfg.FB_HEIGHT < 2147483648 := by rw [hHeq]; exact h1
  have hbounds : cfg.TFT_WIDTH * cfg.FB_WIDTH ≤ 4294967296 ∧
      cfg.TFT_HEIGHT * cfg.FB_HEIGHT ≤ 4294967296 := by
    rcases hsrc with ⟨hFW, hFH⟩ | hb
    · have hW512 : cfg.TFT_WIDTH = 512 := by omega
      have hH342 : cfg.TFT_HEIGHT = 342 := by omega
      rw [hFW, hFH, hW512, hH342]
      constructor <;> decide
    · exact hb
  obtain ⟨hx, hy⟩ := hbounds
  have hvp := viewport_matched cfg hW hH hSW hSH heq h1'
  obtain ⟨mx, my⟩ := matched_mapping cfg hW hH hSW hSH heq h1' hx hy
  refine ⟨by rw [hvp], by rw [hvp], by rw [hvp], by rw [hvp], fun x hxlt => ?_, fun y hylt => ?_⟩
  · rw [mx x hxlt, hWeq]
    exact Nat.mul_div_cancel _ hW
  · rw [my y hylt, hHeq]
    exact Nat.mul_div_cancel _ hH

/-- C15 for the source's 512 by 342 on a destination of the same resolution. -/
theorem C15_equal_resolution_identity_witness :
    (st7789_viewport native_config).x_pad = 0 ∧
    (st7789_viewport native_config).y_pad = 0 ∧
    (st7789_viewport native_config).active_w = native_config.TFT_WIDTH ∧
    (st7789_viewport native_config).active_h = native_config.TFT_HEIGHT ∧
    (∀ x, x < native_config.TFT_WIDTH → st7789_src_x native_config x = x) ∧
    (∀ y, y < native_config.TFT_HEIGHT → st7789_src_y native_config y = y) :=
  C15_equal_resolution_identity native_config (by decide) (by decide) (by decide) (by decide)
    (by decide) (Or.inl ⟨rfl, rfl⟩)

/-- C16. For every framebuffer addressable with 32-bit word offsets, every stride and every
`(src_x, src_y)` whose word lies inside the framebuffer, `st7789_sample_pixel` reads the
word at index `src_y * stride + src_x / 32` and returns `0xFFFF` if its bit number
`31 - src_x mod 32` is set and `0x0000` otherwise; it never returns any other value. -/
theorem C16_sample_pixel (fb : List Nat) (src_x src_y stride : Nat)
    (hlen : fb.length ≤ 4294967296)
    (hidx : src_y * stride + src_x / 32 < fb.length) :
    sample_word_index src_x src_y stride = src_y * stride + src_x / 32 ∧
    st7789_sample_pixel fb src_x src_y stride
      = some (if (fb.getD (src_y * stride + src_x / 32) 0).testBit (31 - src_x % 32) = true
          then 0xFFFF else 0x0000) ∧
    (∀ (fb2 : List Nat) (x2 y2 s2 r : Nat),
      st7789_sample_pixel fb2 x2 y2 s2 = some r → r = 0xFFFF ∨ r = 0x0000) := by
  have hprod : src_y * stride < 4294967296 := by omega
  refine ⟨?_, ?_, ?_⟩
  · unfold sample_word_index
    rw [wrap32_of_lt hprod, shr_5_eq_div]
  · rw [sample_pixel_eq fb src_x src_y stride hprod hidx]
    rfl
  · intro fb2 x2 y2 s2 r h
    rw [sample_pixel_reads] at h
    cases hw : fb2[sample_word_index x2 y2 s2]? with
    | none => rw [hw] at h; cases h
    | some word =>
      rw [hw] at h
      simp only [Option.some.injEq] at h
      by_cases hbit : (((word >>> sub32 31 (x2 &&& 31)) &&& 0x1) != 0) = true
      · rw [if_pos hbit] at h
        exact Or.inl h.symm
      · rw [if_neg hbit] at h
        exact Or.inr h.symm

/-- C16 for the pixel at column 7, row 0 of the framebuffer whose first eight bits are
set. -/
theorem C16_sample_pixel_witness :
    sample_word_index 7 0 16 = 0 * 16 + 7 / 32 ∧
    st7789_sample_pixel top_left_framebuffer 7 0 16
      = some (if (top_left_framebuffer.getD (0 * 16 + 7 / 32) 0).testBit (31 - 7 % 32) = true
          then 0xFFFF else 0x0000) ∧
    (∀ (fb2 : List Nat) (x2 y2 s2 r : Nat),
      st7789_sample_pixel fb2 x2 y2 s2 = some r → r = 0xFFFF ∨ r = 0x0000) :=
  C16_sample_pixel top_left_framebuffer 7 0 16
    (by rw [top_left_framebuffer_length]; decide)
    (by rw [top_left_framebuffer_length]; decide)

/-- C17. The source stride in 32-bit words that the renderer derives from the source
width equals `ceil(FB_WIDTH / 32)`, for every source width that is a whole number of
32-bit words, as is the 512 that `tft_2p.c` fixes; it is 16 words for that width. -/
theorem C17_stride_is_ceil (cfg : Config)
    (hw : cfg.FB_WIDTH < 2147483648) (h32 : cfg.FB_WIDTH % 32 = 0) :
    src_stride_words cfg = ceil_div cfg.FB_WIDTH 32 ∧
    src_stride_words defaultConfig = 16 ∧
    ceil_div defaultConfig.FB_WIDTH 32 = 16 := by
  have e : src_stride_words cfg = cfg.FB_WIDTH / 32 := wrap32_of_lt (by omega)
  refine ⟨?_, by decide, by decide⟩
  rw [e]
  unfold ceil_div
  omega

/-- C17 at the default configuration, source width 512. -/
theorem C17_stride_is_ceil_witness :
    src_stride_words defaultConfig = ceil_div defaultConfig.FB_WIDTH 32 ∧
    src_stride_words defaultConfig = 16 ∧
    ceil_div defaultConfig.FB_WIDTH 32 = 16 :=
  C17_stride_is_ceil defaultConfig (by decide) (by decide)

/-- C18. For every destination row `y` inside the vertical band and every column
`x < active_w` visited by the renderer, the computed source coordinates satisfy
`src_y < FB_HEIGHT` and `src_x < FB_WIDTH`; when `FB_WIDTH` is a multiple of 32 the word
index read by `st7789_sample_pixel` is below `FB_HEIGHT * stride`, so the read succeeds on
every framebuffer of at least that length. -/
theorem C18_reads_in_bounds (cfg : Config) (x y : Nat)
    (hW : 0 < cfg.TFT_WIDTH) (hH : 0 < cfg.TFT_HEIGHT)
    (hSW : 0 < cfg.FB_WIDTH) (hSH : 0 < cfg.FB_HEIGHT)
    (h1 : cfg.TFT_WIDTH * cfg.FB_HEIGHT < 2147483648)
    (h2 : cfg.TFT_HEIGHT * cfg.FB_WIDTH < 2147483648)
    (h32 : cfg.FB_WIDTH % 32 = 0)
    (hy1 : (st7789_viewport cfg).y_pad ≤ y)
    (hy2 : y < (st7789_viewport cfg).y_pad + (st7789_viewport cfg).active_h)
    (hx : x < (st7789_viewport cfg).active_w) :
    st7789_src_y cfg y < cfg.FB_HEIGHT ∧
    st7789_src_x cfg x < cfg.FB_WIDTH ∧
    st7789_src_y cfg y * src_stride_words cfg + st7789_src_x cfg x / 32
      < cfg.FB_HEIGHT * src_stride_words cfg ∧
    sample_word_index (st7789_src_x cfg x) (st7789_src_y cfg y) (src_stride_words cfg)
      < cfg.FB_HEIGHT * src_stride_words cfg ∧
    (∀ fb : List Nat, cfg.FB_HEIGHT * src_stride_words cfg ≤ fb.length →
      ∃ color, st7789_sample_pixel fb (st7789_src_x cfg x) (st7789_src_y cfg y)
        (src_stride_words cfg) = some color) := by
  obtain ⟨-, hah, -, -, hyp⟩ := viewport_bounds cfg hW hH hSW hSH h1 h2
  have hHlt : cfg.TFT_HEIGHT < 2147483648 :=
    lt_of_le_of_lt (Nat.le_mul_of_pos_right _ hSW) h2
  have hSWlt : cfg.FB_WIDTH < 2147483648 :=
    lt_of_le_of_lt (Nat.le_mul_of_pos_left _ hH) h2
  have hstride : src_stride_words cfg = cfg.FB_WIDTH / 32 := wrap32_of_lt (by omega)
  have hsy : st7789_src_y cfg y < cfg.FB_HEIGHT := by
    unfold st7789_src_y
    rw [sub32_of_le hy1 (by omega)]
    apply Nat.div_lt_of_lt_mul
    have hlt : (y - (st7789_viewport cfg).y_pad) * cfg.FB_HEIGHT
        < (st7789_viewport cfg).active_h * cfg.FB_HEIGHT :=
      Nat.mul_lt_mul_of_pos_right (by omega) hSH
    exact lt_of_le_of_lt (Nat.mod_le _ _) hlt
  have hsx : st7789_src_x cfg x < cfg.FB_WIDTH := by
    unfold st7789_src_x
    apply Nat.div_lt_of_lt_mul
    have hlt : x * cfg.FB_WIDTH < (st7789_viewport cfg).active_w * cfg.FB_WIDTH :=
      Nat.mul_lt_mul_of_pos_right hx hSW
    exact lt_of_le_of_lt (Nat.mod_le _ _) hlt
  have hrow : st7789_src_y cfg y * (cfg.FB_WIDTH / 32) + cfg.FB_WIDTH / 32
      ≤ cfg.FB_HEIGHT * (cfg.FB_WIDTH / 32) := by
    have : (st7789_src_y cfg y + 1) * (cfg.FB_WIDTH / 32)
        ≤ cfg.FB_HEIGHT * (cfg.FB_WIDTH / 32) := Nat.mul_le_mul_right _ hsy
    rw [Nat.add_mul, Nat.one_mul] at this
    exact this
  have hword : st7789_src_x cfg x / 32 < cfg.FB_WIDTH / 32 := by omega
  have hidx : st7789_src_y cfg y * src_stride_words cfg + st7789_src_x cfg x / 32
      < cfg.FB_HEIGHT * src_stride_words cfg := by
    rw [hstride]
    omega
  have hwi : sample_word_index (st7789_src_x cfg x) (st7789_src_y cfg y) (src_stride_words cfg)
      < cfg.FB_HEIGHT * src_stride_words cfg := by
    unfold sample_word_index
    rw [shr_5_eq_div]
    have : wrap32 (st7789_src_y cfg y * src_stride_words cfg)
        ≤ st7789_src_y cfg y * src_stride_words cfg := Nat.mod_le _ _
    omega
  refine ⟨hsy, hsx, hidx, hwi, fun fb hfb => ?_⟩
  rw [sample_pixel_reads, List.getElem?_eq_getElem (lt_of_lt_of_le hwi hfb)]
  exact ⟨_, rfl⟩

/-- C18 at the default configuration: the last column of the last row of the band. -/
theorem C18_reads_in_bounds_witness :
    st7789_src_y defaultConfig 239 < defaultConfig.FB_HEIGHT ∧
    st7789_src_x defaultConfig 239 < defaultConfig.FB_WIDTH ∧
    st7789_src_y defaultConfig 239 * src_stride_words defaultConfig
        + st7789_src_x defaultConfig 239 / 32
      < defaultConfig.FB_HEIGHT * src_stride_words defaultConfig ∧
    sample_word_index (st7789_src_x defaultConfig 239) (st7789_src_y defaultConfig 239)
        (src_stride_words defaultConfig)
      < defaultConfig.FB_HEIGHT * src_stride_words defaultConfig ∧
    (∀ fb : List Nat, defaultConfig.FB_HEIGHT * src_stride_words defaultConfig ≤ fb.length →
      ∃ color, st7789_sample_pixel fb (st7789_src_x defaultConfig 239)
        (st7789_src_y defaultConfig 239) (src_stride_words defaultConfig) = some color) :=
  C18_reads_in_bounds defaultConfig 239 239 (by decide) (by decide) (by decide) (by decide)
    (by decide) (by decide) (by decide) (by decide) (by decide) (by decide)

/-- C19. For positive resolutions (the `int` products of the fit step not overflowing)
every line-buffer index written by the renderer is in bounds: for every `x < active_w`,
`out_x = x + x_pad < TFT_WIDTH`, hence `2 * out_x + 1 < 2 * TFT_WIDTH`, because
`x_pad + active_w ≤ TFT_WIDTH`; the two `uint32_t` indices the code forms are below the
size of `line_bytes`. -/
theorem C19_writes_in_bounds (cfg : Config) (x : Nat)
    (hW : 0 < cfg.TFT_WIDTH) (hH : 0 < cfg.TFT_HEIGHT)
    (hSW : 0 < cfg.FB_WIDTH) (hSH : 0 < cfg.FB_HEIGHT)
    (h1 : cfg.TFT_WIDTH * cfg.FB_HEIGHT < 2147483648)
    (h2 : cfg.TFT_HEIGHT * cfg.FB_WIDTH < 2147483648)
    (hx : x < (st7789_viewport cfg).active_w) :
    (st7789_viewport cfg).x_pad + (st7789_viewport cfg).active_w ≤ cfg.TFT_WIDTH ∧
    st7789_out_x cfg x = x + (st7789_viewport cfg).x_pad ∧
    st7789_out_x cfg x < cfg.TFT_WIDTH ∧
    2 * st7789_out_x cfg x + 1 < 2 * cfg.TFT_WIDTH ∧
    wrap32 (st7789_out_x cfg x * 2) < (List.replicate (cfg.TFT_WIDTH * 2) 0).length ∧
    wrap32 (st7789_out_x cfg x * 2 + 1) < (List.replicate (cfg.TFT_WIDTH * 2) 0).length := by
  obtain ⟨haw, -, -, hxp, -⟩ := viewport_bounds cfg hW hH hSW hSH h1 h2
  have hWlt : cfg.TFT_WIDTH < 2147483648 :=
    lt_of_le_of_lt (Nat.le_mul_of_pos_right _ hSH) h1
  have hsum : (st7789_viewport cfg).x_pad + (st7789_viewport cfg).active_w ≤ cfg.TFT_WIDTH := by
    omega
  have hout : st7789_out_x cfg x = x + (st7789_viewport cfg).x_pad :=
    wrap32_of_lt (by omega)
  rw [hout, List.length_replicate, wrap32_of_lt (by omega), wrap32_of_lt (by omega)]
  refine ⟨hsum, rfl, ?_, ?_, ?_, ?_⟩ <;> omega

/-- C19 at the default configuration, for the last column. -/
theorem C19_writes_in_bounds_witness :
    (st7789_viewport defaultConfig).x_pad + (st7789_viewport defaultConfig).active_w
      ≤ defaultConfig.TFT_WIDTH ∧
    st7789_out_x defaultConfig 239 = 239 + (st7789_viewport defaultConfig).x_pad ∧
    st7789_out_x defaultConfig 239 < defaultConfig.TFT_WIDTH ∧
    2 * st7789_out_x defaultConfig 239 + 1 < 2 * defaultConfig.TFT_WIDTH ∧
    wrap32 (st7789_out_x defaultConfig 239 * 2)
      < (List.replicate (defaultConfig.TFT_WIDTH * 2) 0).length ∧
    wrap32 (st7789_out_x defaultConfig 239 * 2 + 1)
      < (List.replicate (defaultConfig.TFT_WIDTH * 2) 0).length :=
  C19_writes_in_bounds defaultConfig 239 (by decide) (by decide) (by decide) (by decide)
    (by decide) (by decide) (by decide)

/-- C20. For every byte `b` the traces of `tft_write_com` and `tft_write_dat` are identical
except for the data-line level driven before the first clock pulse, low for a command and
high for data: both are one transfer of nine clock pulses whose last eight carry bits
7, 6, ..., 0 of `b`. -/
theorem C20_com_dat_differ_in_mode_bit (pause b : Nat) (hb : b < 256) :
    tft_write_com pause b = bit_transfer pause (false :: msb_first_bits b) ∧
    tft_write_dat pause b = bit_transfer pause (true :: msb_first_bits b) ∧
    (tft_write_com pause b)[2]? = some (Event.gpio_put Pin.TFT_SPI_MOSI false) ∧
    (tft_write_dat pause b)[2]? = some (Event.gpio_put Pin.TFT_SPI_MOSI true) ∧
    (tft_write_com pause b).set 2 (Event.gpio_put Pin.TFT_SPI_MOSI true)
      = tft_write_dat pause b ∧
    clocked_bits (tft_write_com pause b) = false :: msb_first_bits b ∧
    clocked_bits (tft_write_dat pause b) = true :: msb_first_bits b ∧
    (clocked_bits (tft_write_com pause b)).length
      = (clocked_bits (tft_write_dat pause b)).length := by
  have hc : tft_write_com pause b = bit_transfer pause (false :: msb_first_bits b) := by
    unfold tft_write_com bit_transfer
    rw [write_com_loop_eq, shifted_msbs_byte b hb]
    rfl
  have hd : tft_write_dat pause b = bit_transfer pause (true :: msb_first_bits b) := by
    unfold tft_write_dat bit_transfer
    rw [write_dat_loop_eq, shifted_msbs_byte b hb]
    rfl
  refine ⟨hc, hd, ?_, ?_, ?_, ?_, ?_, ?_⟩
  · rw [hc]; rfl
  · rw [hd]; rfl
  · rw [hc, hd]; rfl
  · rw [hc, clocked_bits_transfer]
  · rw [hd, clocked_bits_transfer]
  · rw [hc, hd, clocked_bits_transfer, clocked_bits_transfer]
    rfl

/-- C20 for the byte `0x3A` with a pause of 1 microsecond. -/
theorem C20_com_dat_differ_in_mode_bit_witness :
    tft_write_com 1 0x3A = bit_transfer 1 (false :: msb_first_bits 0x3A) ∧
    tft_write_dat 1 0x3A = bit_transfer 1 (true :: msb_first_bits 0x3A) ∧
    (tft_write_com 1 0x3A)[2]? = some (Event.gpio_put Pin.TFT_SPI_MOSI false) ∧
    (tft_write_dat 1 0x3A)[2]? = some (Event.gpio_put Pin.TFT_SPI_MOSI true) ∧
    (tft_write_com 1 0x3A).set 2 (Event.gpio_put Pin.TFT_SPI_MOSI true)
      = tft_write_dat 1 0x3A ∧
    clocked_bits (tft_write_com 1 0x3A) = false :: msb_first_bits 0x3A ∧
    clocked_bits (tft_write_dat 1 0x3A) = true :: msb_first_bits 0x3A ∧
    (clocked_bits (tft_write_com 1 0x3A)).length
      = (clocked_bits (tft_write_dat 1 0x3A)).length :=
  C20_com_dat_differ_in_mode_bit 1 0x3A (by decide)

end Tft2p
